import Mathlib

set_option autoImplicit false

/-! Verification development for the frame-driven simulation engine of the
AInfinite Demon Hunter arcade game (sources: GameCanvas.tsx, audioService.ts).

Modelling conventions, fixed once for the whole file:

* Machine numbers: positions, sizes, alpha values and velocities are rationals;
  timestamps are integers (milliseconds); counters are naturals.
* Randomness (Math.random) is modelled by oracle streams of rationals supplied
  as explicit inputs; trigonometric direction samples (Math.cos/Math.sin of a
  random angle) are modelled as oracle-supplied direction pairs, since no
  verified property depends on their values.
* All Date.now() reads inside one animation-frame callback are modelled as the
  single timestamp of that tick.
* React state cells (gameOver, victory) are written through setGameOver and
  setVictory, but the render loop is registered exactly once, in the mount
  effect with an empty dependency list, and forever invokes the first
  render's draw closure.  That closure captured both cells at their initial
  value false, and nothing mirrors them into a ref, so every guard in the
  running loop that mentions gameOver or victory reads false permanently:
  spawning, escapes, the victory check and the hand triggers keep running
  after either flag is set.  The stage functions below therefore take the
  guard values as explicit parameters, and the tick wiring instantiates them
  with the constant false the closure actually reads; the gameOver and
  victory fields of the state record the committed cell values, observed only
  by the rendering overlay and the restart handler.  Both set calls sit
  inside branches gated by one-shot refs, so each flag is set at most once
  per session.  Mutable refs (livesRef, killCount, the sound one-shot flags,
  combo state, debounce timestamps) update immediately.
* The particle pool has no feedback into the session variables (it is read
  only by the emission cap check and the per-tick compaction), so the particle
  subsystem and the session state machine are modelled separately.
* Purely cosmetic fields that never influence any modelled variable are
  omitted: demon wobble phase, wobble speed, mouth animation and colour
  palette; particle angle, trail length and wobble scale (the latter are also
  irrational-valued).  The hit tests compare squared Euclidean distances,
  which is equivalent to the square-root comparisons in the source since the
  radii involved are nonnegative.
* Sound invocations on the audio collaborator are recorded in audit fields
  (victorySounds, gameOverSounds, the explosion audio log); the restart
  handler starts a fresh session, so the per-session sound counters reset
  with it. -/

/-- MAX_LIVES from GameCanvas.tsx. -/
def MAX_LIVES : Int := 3

/-- VICTORY_KILLS from GameCanvas.tsx. -/
def VICTORY_KILLS : Nat := 30

/-- DEMON_ESCAPE_TIME (ms) from GameCanvas.tsx. -/
def DEMON_ESCAPE_TIME : Int := 5000

/-- MAX_PARTICLES from GameCanvas.tsx. -/
def MAX_PARTICLES : Nat := 800

/-- COMBO_TIMEOUT (ms) from GameCanvas.tsx. -/
def COMBO_TIMEOUT : Int := 1500

/-- randomRange from GameCanvas.tsx: Math.random() * (max - min) + min, with
the Math.random() draw passed explicitly. -/
def randomRange (lo hi r : ℚ) : ℚ := r * (hi - lo) + lo

/-- randomChoice from GameCanvas.tsx: arr[Math.floor(Math.random() * arr.length)],
with the Math.random() draw passed explicitly. -/
def randomChoice (xs : List ℚ) (r : ℚ) : ℚ := xs.getD (Int.toNat ⌊r * xs.length⌋) 0

/-- ParticleType from GameCanvas.tsx. -/
inductive ParticleType where
  | core | flame | spark | debris | smoke | shockwave | glow | trail
deriving DecidableEq, Repr

/-- Particle from GameCanvas.tsx, restricted to the fields that influence the
modelled behaviour (angle, length and wobbleScale are rendering-only). -/
structure Particle where
  x : ℚ
  y : ℚ
  vx : ℚ
  vy : ℚ
  hue : ℚ
  lightness : ℚ
  alpha : ℚ
  decay : ℚ
  friction : ℚ
  gravity : ℚ
  size : ℚ
  type : ParticleType
deriving DecidableEq, Repr

/-- Particle constructor from GameCanvas.tsx; r is the Math.random() draw used
for the default decay jitter. -/
def mkParticle (x y hue vx vy lightness size : ℚ) (t : ParticleType) (r : ℚ) : Particle :=
  { x := x, y := y, vx := vx, vy := vy, hue := hue, lightness := lightness,
    alpha := 1, decay := 0.04 + r * 0.03, friction := 0.94, gravity := 0.05,
    size := size, type := t }

/-- Particle.update from GameCanvas.tsx: vx *= friction; vy *= friction;
vy += gravity; x += vx; y += vy; alpha -= decay. -/
def Particle.update (p : Particle) : Particle :=
  let vx := p.vx * p.friction
  let vy := p.vy * p.friction + p.gravity
  { p with vx := vx, vy := vy, x := p.x + vx, y := p.y + vy, alpha := p.alpha - p.decay }

/-- Particle.isDead from GameCanvas.tsx: alpha at most zero. -/
def Particle.isDead (p : Particle) : Bool := p.alpha ≤ 0

/-- Randomness oracle for one explosion burst: vel k is the sampled unit
direction (cos, sin of the sampled angle) for burst slot k, and u k j is the
j-th uniform Math.random() draw of slot k. -/
structure EmissionRng where
  vel : Nat → ℚ × ℚ
  u : Nat → Nat → ℚ

/-- Assumption that an oracle only produces values a real Math.random() can
produce, namely rationals in the half-open unit interval. -/
def EmissionRngOk (g : EmissionRng) : Prop := ∀ k j, 0 ≤ g.u k j ∧ g.u k j < 1

/-- Core flash of triggerExplosion (slot 0): hue 40, lightness 85, size
25 * scale, then decay 0.15, gravity 0, friction 1. -/
def flashCoreOf (x y scale : ℚ) (g : EmissionRng) : Particle :=
  let p := mkParticle x y 40 0 0 85 (25 * scale) ParticleType.core (g.u 0 9)
  { p with decay := 0.15, gravity := 0, friction := 1 }

/-- Orange glow of triggerExplosion (slot 1): hue 35, lightness 70, size
40 * scale, then decay 0.1, gravity 0, friction 1. -/
def glowOf (x y scale : ℚ) (g : EmissionRng) : Particle :=
  let p := mkParticle x y 35 0 0 70 (40 * scale) ParticleType.glow (g.u 1 9)
  { p with decay := 0.1, gravity := 0, friction := 1 }

/-- Spark ray i of triggerExplosion (slots 2 to 9): speed randomRange 12 22
times scale along the sampled direction, hue drawn from the orange-to-red
list, lightness 80, size 3, then decay 0.09, gravity 0.04, friction 0.94. -/
def sparkOf (x y scale : ℚ) (g : EmissionRng) (i : Nat) : Particle :=
  let k := 2 + i
  let d := g.vel k
  let speed := randomRange 12 22 (g.u k 1) * scale
  let p := mkParticle x y (randomChoice [45, 40, 35, 30, 25, 20, 15] (g.u k 0))
    (d.1 * speed) (d.2 * speed) 80 3 ParticleType.spark (g.u k 9)
  { p with decay := 0.09, gravity := 0.04, friction := 0.94 }

/-- Inner flame i of triggerExplosion (slots 10 to 15): speed randomRange 5 10
times scale, hue from 45 40 35, lightness randomRange 65 80, size
randomRange 15 25 times scale, then decay 0.08, gravity -0.03, friction 0.9. -/
def innerFlameOf (x y scale : ℚ) (g : EmissionRng) (i : Nat) : Particle :=
  let k := 10 + i
  let d := g.vel k
  let speed := randomRange 5 10 (g.u k 1) * scale
  let p := mkParticle x y (randomChoice [45, 40, 35] (g.u k 0))
    (d.1 * speed) (d.2 * speed) (randomRange 65 80 (g.u k 2))
    (randomRange 15 25 (g.u k 4) * scale) ParticleType.flame (g.u k 9)
  { p with decay := 0.08, gravity := -0.03, friction := 0.9 }

/-- Outer flame i of triggerExplosion (slots 16 to 25): speed randomRange 8 14
times scale, hue from the orange-to-deep-red list, lightness randomRange 55 70,
size randomRange 12 22 times scale, then decay 0.07, gravity
randomRange -0.02 0.04, friction 0.91. -/
def outerFlameOf (x y scale : ℚ) (g : EmissionRng) (i : Nat) : Particle :=
  let k := 16 + i
  let d := g.vel k
  let speed := randomRange 8 14 (g.u k 1) * scale
  let p := mkParticle x y (randomChoice [35, 30, 25, 20, 15, 10, 5] (g.u k 0))
    (d.1 * speed) (d.2 * speed) (randomRange 55 70 (g.u k 2))
    (randomRange 12 22 (g.u k 4) * scale) ParticleType.flame (g.u k 9)
  { p with decay := 0.07, gravity := randomRange (-0.02) 0.04 (g.u k 3), friction := 0.91 }

/-- Debris ember i of triggerExplosion (slots 26 to 35): speed
randomRange 10 20 times scale, hue from 45 35 25 15, lightness
randomRange 60 80, size randomRange 2 5, then decay 0.05, gravity 0.12,
friction 0.95. -/
def debrisOf (x y scale : ℚ) (g : EmissionRng) (i : Nat) : Particle :=
  let k := 26 + i
  let d := g.vel k
  let speed := randomRange 10 20 (g.u k 1) * scale
  let p := mkParticle x y (randomChoice [45, 35, 25, 15] (g.u k 0))
    (d.1 * speed) (d.2 * speed) (randomRange 60 80 (g.u k 2))
    (randomRange 2 5 (g.u k 4)) ParticleType.debris (g.u k 9)
  { p with decay := 0.05, gravity := 0.12, friction := 0.95 }

/-- Trailing ember i of triggerExplosion (slots 36 to 41): speed
randomRange 6 12 times scale, hue from 50 40 30 20, lightness 75, size 3,
then decay 0.06, gravity 0.06, friction 0.93. -/
def trailOf (x y scale : ℚ) (g : EmissionRng) (i : Nat) : Particle :=
  let k := 36 + i
  let d := g.vel k
  let speed := randomRange 6 12 (g.u k 1) * scale
  let p := mkParticle x y (randomChoice [50, 40, 30, 20] (g.u k 0))
    (d.1 * speed) (d.2 * speed) 75 3 ParticleType.trail (g.u k 9)
  { p with decay := 0.06, gravity := 0.06, friction := 0.93 }

/-- Smoke puff i of triggerExplosion (slots 42 to 44): spawned at the origin
plus a jitter of (r - 0.5) * 15 in each coordinate, drifting velocity, hue 20,
lightness 25, size randomRange 15 30 times scale, then decay 0.02,
gravity -0.04, friction 0.97. -/
def smokeOf (x y scale : ℚ) (g : EmissionRng) (i : Nat) : Particle :=
  let k := 42 + i
  let p := mkParticle (x + (g.u k 0 - 0.5) * 15) (y + (g.u k 1 - 0.5) * 15) 20
    ((g.u k 2 - 0.5) * 2) (-0.5 - g.u k 3) 25
    (randomRange 15 30 (g.u k 4) * scale) ParticleType.smoke (g.u k 9)
  { p with decay := 0.02, gravity := -0.04, friction := 0.97 }

/-- Particles appended by one uncapped triggerExplosion call, in source push
order: core flash, glow, 8 sparks, 6 inner flames, 10 outer flames, 10 debris,
6 trailing embers, 3 smoke puffs. -/
def explosionBurst (x y scale : ℚ) (g : EmissionRng) : List Particle :=
  flashCoreOf x y scale g :: glowOf x y scale g ::
    ((List.range 8).map (sparkOf x y scale g) ++
     (List.range 6).map (innerFlameOf x y scale g) ++
     (List.range 10).map (outerFlameOf x y scale g) ++
     (List.range 10).map (debrisOf x y scale g) ++
     (List.range 6).map (trailOf x y scale g) ++
     (List.range 3).map (smokeOf x y scale g))

/-- Particle subsystem state: the live pool plus the audit log of scales
passed to the audio collaborator playExplosion trigger. -/
structure PSys where
  particles : List Particle
  audio : List ℚ
deriving DecidableEq, Repr

/-- triggerExplosion from GameCanvas.tsx: a no-op once the live pool holds
strictly more than MAX_PARTICLES entries, otherwise one playExplosion call
with the given scale plus the 45-particle burst. -/
def triggerExplosion (s : PSys) (x y scale : ℚ) (g : EmissionRng) : PSys :=
  if MAX_PARTICLES < s.particles.length then s
  else
    { particles := s.particles ++ explosionBurst x y scale g,
      audio := s.audio ++ [scale] }

/-- Per-tick particle pass of draw in GameCanvas.tsx: update every particle,
then the in-place compaction keeps exactly the particles that are not dead,
preserving relative order. -/
def PSys.step (s : PSys) : PSys :=
  { s with particles := (s.particles.map Particle.update).filter (fun q => !q.isDead) }

/-- Modelled from the spec: the HandState enumeration imported by
GameCanvas.tsx from the types module, which is not part of the available
sources; the spec lists the three states Unknown, Fist, Open. -/
inductive HandState where
  | unknown | fist | openHand
deriving DecidableEq, Repr

/-- Demon from GameCanvas.tsx, restricted to the fields that influence the
modelled behaviour (colour palette, wobble phase, wobble speed and mouth
animation are rendering-only). -/
structure Demon where
  x : ℚ
  y : ℚ
  size : ℚ
  spawnTime : Int
  alpha : ℚ
  isDying : Bool
  deathTime : Int
  escaped : Bool
deriving DecidableEq, Repr

/-- Demon.shouldEscape from GameCanvas.tsx: not already dying or escaped and
alive for strictly longer than DEMON_ESCAPE_TIME. -/
def Demon.shouldEscape (d : Demon) (now : Int) : Bool :=
  !d.isDying && !d.escaped && decide (DEMON_ESCAPE_TIME < now - d.spawnTime)

/-- Demon.escape from GameCanvas.tsx: mark escaped and start the fade out. -/
def Demon.escape (d : Demon) : Demon :=
  { d with escaped := true, isDying := true }

/-- Demon.kill from GameCanvas.tsx: start the fade out and stamp the death
time. -/
def Demon.kill (d : Demon) (now : Int) : Demon :=
  { d with isDying := true, deathTime := now }

/-- Demon.update from GameCanvas.tsx: fade in by 0.05 per tick up to 1 while
not dying, fade out by 0.1 per tick while dying. -/
def Demon.update (d : Demon) : Demon :=
  let d := if !d.isDying && decide (d.alpha < 1) then { d with alpha := min 1 (d.alpha + 0.05) } else d
  if d.isDying then { d with alpha := d.alpha - 0.1 } else d

/-- Demon.isDead from GameCanvas.tsx: dying and fully faded out. -/
def Demon.isDead (d : Demon) : Bool :=
  d.isDying && decide (d.alpha ≤ 0)

/-- Kill-radius test of killDemonsNearPoint in GameCanvas.tsx: Euclidean
distance from the blast point below radius + size * 0.5, compared on
squares. -/
def inKillRadius (d : Demon) (x y radius : ℚ) : Bool :=
  (x - d.x) * (x - d.x) + (y - d.y) * (y - d.y) < (radius + d.size * 0.5) * (radius + d.size * 0.5)

/-- Screen shake record from GameCanvas.tsx. -/
structure ScreenShake where
  intensity : ℚ
  duration : Int
  startTime : Int
deriving DecidableEq, Repr

/-- Session state of GameCanvas.tsx: the refs and React state cells of the
component that carry game logic, plus audit counters for the one-shot sounds
and for triggerExplosion invocations issued by the session logic. -/
structure GState where
  demons : List Demon
  lives : Int
  killCount : Nat
  gameOver : Bool
  victory : Bool
  victorySoundPlayed : Bool
  gameOverSoundPlayed : Bool
  comboCount : Nat
  lastKillTime : Int
  lastTriggerLeft : Int
  lastTriggerRight : Int
  prevHandLeft : HandState
  prevHandRight : HandState
  lastDemonSpawn : Int
  grandFinaleLastSpawn : Int
  shake : ScreenShake
  victorySounds : Nat
  gameOverSounds : Nat
  sessionExplosions : Nat
deriving DecidableEq, Repr

/-- Initial session state: the initial values of the refs and state cells of
GameCanvas.tsx. -/
def initState : GState :=
  { demons := [], lives := MAX_LIVES, killCount := 0, gameOver := false,
    victory := false, victorySoundPlayed := false, gameOverSoundPlayed := false,
    comboCount := 0, lastKillTime := 0, lastTriggerLeft := 0, lastTriggerRight := 0,
    prevHandLeft := HandState.unknown, prevHandRight := HandState.unknown,
    lastDemonSpawn := 0, grandFinaleLastSpawn := 0,
    shake := { intensity := 0, duration := 0, startTime := 0 },
    victorySounds := 0, gameOverSounds := 0, sessionExplosions := 0 }

/-- External inputs of one tick: the timestamp, the latest gesture snapshot
per hand (state and normalized wrist position), the surface dimensions, and
the Math.random() draws a spawn in this tick would consume. -/
structure TickInput where
  now : Int
  handLeft : HandState
  handRight : HandState
  posLeft : ℚ × ℚ
  posRight : ℚ × ℚ
  width : ℚ
  height : ℚ
  spawnRx : ℚ
  spawnRy : ℚ
  spawnRs : ℚ
deriving DecidableEq, Repr

/-- spawnDemon from GameCanvas.tsx: a fresh demon at a random position inside
the 150px margin inset (2.5 margins at the bottom), size randomRange 70 120,
alpha 0, not dying. -/
def spawnDemon (inp : TickInput) : Demon :=
  { x := 150 + inp.spawnRx * (inp.width - 150 * 2),
    y := 150 + inp.spawnRy * (inp.height - 150 * 2.5),
    size := randomRange 70 120 inp.spawnRs,
    spawnTime := inp.now, alpha := 0, isDying := false, deathTime := 0,
    escaped := false }

/-- triggerScreenShake from GameCanvas.tsx. -/
def triggerScreenShake (s : GState) (intensity : ℚ) (duration now : Int) : GState :=
  { s with shake := { intensity := intensity, duration := duration, startTime := now } }

/-- Per-kill bookkeeping of killDemonsNearPoint from GameCanvas.tsx: increment
the kill count, update the combo (increment inside the window, else reset to
one), refresh the last-kill timestamp and retrigger the screen shake with
intensity 8 + 2 * comboCount for 150 ms. -/
def killState (s : GState) (now : Int) : GState :=
  triggerScreenShake
    { s with killCount := s.killCount + 1,
             comboCount := if now - s.lastKillTime < COMBO_TIMEOUT then s.comboCount + 1 else 1,
             lastKillTime := now }
    (8 + ((if now - s.lastKillTime < COMBO_TIMEOUT then s.comboCount + 1 else 1 : Nat) : ℚ) * 2)
    150 now

/-- Loop body of killDemonsNearPoint from GameCanvas.tsx: walk the demon list
in order; every non-dying demon within the kill radius is killed and applies
the per-kill bookkeeping of killState. -/
def killDemonsGo (now : Int) (x y radius : ℚ) :
    List Demon → GState → List Demon × GState
  | [], s => ([], s)
  | d :: ds, s =>
    if !d.isDying && inKillRadius d x y radius then
      let r := killDemonsGo now x y radius ds (killState s now)
      (d.kill now :: r.1, r.2)
    else
      let r := killDemonsGo now x y radius ds s
      (d :: r.1, r.2)

/-- killDemonsNearPoint from GameCanvas.tsx (the returned per-frame kill count
is unused at the call site and omitted). -/
def killDemonsNearPoint (s : GState) (now : Int) (x y radius : ℚ) : GState :=
  let r := killDemonsGo now x y radius s.demons s
  { r.2 with demons := r.1 }

/-- clearAllDemons from GameCanvas.tsx, the IDOL POWER attack: kill every
non-dying demon, incrementing the kill count and emitting one explosion per
victim; combo state is not touched. -/
def clearAllDemons (s : GState) (now : Int) : GState :=
  { s with demons := s.demons.map (fun d => if !d.isDying then d.kill now else d),
           killCount := s.killCount + s.demons.countP (fun d => !d.isDying),
           sessionExplosions := s.sessionExplosions + s.demons.countP (fun d => !d.isDying) }

/-- checkVictory from GameCanvas.tsx; vicS is the value of the victory state
cell as read by the running draw closure (the stale initial false in the
loop).  The one-shot ref victorySoundPlayed gates the whole branch, so the
cell is set and the sound invoked at most once per session. -/
def checkVictory (s : GState) (vicS : Bool) : GState :=
  if s.killCount ≥ VICTORY_KILLS && !vicS && !s.victorySoundPlayed then
    { s with victorySoundPlayed := true, victory := true,
             victorySounds := s.victorySounds + 1 }
  else s

/-- handleDemonEscape from GameCanvas.tsx; goS is the value of the gameOver
state cell as read by the running draw closure (the stale initial false in
the loop).  The decrement is unconditional; the one-shot ref
gameOverSoundPlayed gates the terminal branch, so the cell is set and the
sound invoked at most once per session while lives keeps decreasing. -/
def handleDemonEscape (s : GState) (goS : Bool) : GState :=
  let s1 := { s with lives := s.lives - 1 }
  if decide (s1.lives ≤ 0) && !goS && !s1.gameOverSoundPlayed then
    { s1 with gameOverSoundPlayed := true, gameOver := true,
              gameOverSounds := s1.gameOverSounds + 1 }
  else s1

/-- restartGame from GameCanvas.tsx: reset every session field and clear the
pool; a fresh session also restarts the per-session sound audit counters. -/
def restartGame (s : GState) : GState :=
  { s with killCount := 0, lives := MAX_LIVES, gameOver := false,
           victory := false, victorySoundPlayed := false,
           gameOverSoundPlayed := false, demons := [], lastDemonSpawn := 0,
           comboCount := 0, lastKillTime := 0,
           victorySounds := 0, gameOverSounds := 0 }

/-- Per-demon slice of the demon loop in draw: while the flag values the loop
reads (goS, vicS) are false, escape when due (costing a life via
handleDemonEscape) and advance the fade animation. -/
def demonStep (goS vicS : Bool) (now : Int) (d : Demon) (s : GState) : Demon × GState :=
  if !goS && !vicS then
    let r := if d.shouldEscape now then (d.escape, handleDemonEscape s goS) else (d, s)
    (r.1.update, r.2)
  else (d, s)

/-- Demon loop of draw in GameCanvas.tsx including the in-place compaction:
process demons in order, keeping exactly the ones that are not dead. -/
def demonsPass (goS vicS : Bool) (now : Int) :
    List Demon → GState → List Demon × GState
  | [], s => ([], s)
  | d :: ds, s =>
    let p := demonStep goS vicS now d s
    let r := demonsPass goS vicS now ds p.2
    (if p.1.isDead then r.1 else p.1 :: r.1, r.2)

/-- Screen mapping of the hand loop in draw: clamp the normalized camera
coordinates into the 0.1 to 0.9 and 0.05 to 0.95 sub-ranges, rescale, mirror
the horizontal axis. -/
def screenPos (w h px py : ℚ) : ℚ × ℚ :=
  let ex := max 0 (min 1 ((px - 0.1) / 0.8))
  let ey := max 0 (min 1 ((py - 0.05) / 0.9))
  ((1 - ex) * w, ey * h)

/-- Per-hand trigger of the hand loop in draw: outside Ultimate-Attack mode
and while the flag values the loop reads are false, an edge from a non-Open
state to Open at strictly more than 250 ms since the last trigger of this
hand fires one explosion and the radius-120 kill test, and refreshes the
debounce timestamp.  Returns the updated state and debounce timestamp. -/
def handTrigger (goS vicS bothOpen : Bool) (prev cur : HandState) (lastT now : Int)
    (sx sy : ℚ) (s : GState) : GState × Int :=
  if !bothOpen && !goS && !vicS then
    if cur == HandState.openHand && !(prev == HandState.openHand) && decide (250 < now - lastT) then
      let s1 := { s with sessionExplosions := s.sessionExplosions + 1 }
      (killDemonsNearPoint s1 now sx sy 120, now)
    else (s, lastT)
  else (s, lastT)

/-- Number of triggerExplosion calls issued by one invocation of the
Ultimate-Attack pattern generator for a given phase (the six patterns of draw
place 5, 6, 5, 7, 8 and 8 explosions respectively). -/
def patternCount (phase : Int) : Nat :=
  if phase = 0 then 5 else if phase = 1 then 6 else if phase = 2 then 5
  else if phase = 3 then 7 else if phase = 4 then 8 else 8

/-- Screen shake bookkeeping at the top of draw: once the duration has fully
elapsed the intensity is forced back to zero. -/
def shakeStage (s : GState) (now : Int) : GState :=
  if decide (0 < s.shake.intensity) && !(decide (now - s.shake.startTime < s.shake.duration)) then
    { s with shake := { s.shake with intensity := 0 } } else s

/-- Combo timeout reset of draw: the combo count falls back to zero once more
than COMBO_TIMEOUT has elapsed since the last kill. -/
def comboStage (s : GState) (now : Int) : GState :=
  if decide (COMBO_TIMEOUT < now - s.lastKillTime) then { s with comboCount := 0 } else s

/-- Ultimate-Attack pattern emitter of draw: while both hands are open and at
least 15 ms have passed since the last pattern burst, issue the explosions of
the pattern selected by floor(now / 400) mod 6 and stamp the burst time. -/
def finaleStage (s : GState) (bothOpen : Bool) (now : Int) : GState :=
  if bothOpen && decide (15 < now - s.grandFinaleLastSpawn) then
    { s with sessionExplosions := s.sessionExplosions + patternCount ((now / 400) % 6),
             grandFinaleLastSpawn := now }
  else s

/-- Spawn scheduler of draw: while the flag values the loop reads are false,
fewer than 8 demons are live and the shrinking interval
max 800 (2000 - 20 * killCount) has elapsed, append one fresh demon and stamp
the spawn time. -/
def spawnStage (goS vicS : Bool) (s : GState) (inp : TickInput) : GState :=
  if !goS && !vicS &&
      decide (max 800 (2000 - 20 * (s.killCount : Int)) < inp.now - s.lastDemonSpawn) &&
      decide (s.demons.length < 8) then
    { s with demons := s.demons ++ [spawnDemon inp], lastDemonSpawn := inp.now }
  else s

/-- IDOL POWER clear of draw: while the flag values the loop reads are false,
both hands are open and some demon is not yet dying, clear all demons. -/
def clearStage (goS vicS bothOpen : Bool) (s : GState) (now : Int) : GState :=
  if !goS && !vicS && bothOpen && s.demons.any (fun d => !d.isDying) then
    clearAllDemons s now else s

/-- Demon lifecycle loop of draw including the in-place compaction. -/
def demonStage (goS vicS : Bool) (s : GState) (now : Int) : GState :=
  let p := demonsPass goS vicS now s.demons s
  { p.2 with demons := p.1 }

/-- Left-hand slice of the hand loop of draw: edge trigger plus the
unconditional previous-state update. -/
def handStageLeft (goS vicS bothOpen : Bool) (s : GState) (inp : TickInput) : GState :=
  let pos := screenPos inp.width inp.height inp.posLeft.1 inp.posLeft.2
  let h := handTrigger goS vicS bothOpen s.prevHandLeft inp.handLeft s.lastTriggerLeft inp.now pos.1 pos.2 s
  { h.1 with lastTriggerLeft := h.2, prevHandLeft := inp.handLeft }

/-- Right-hand slice of the hand loop of draw: edge trigger plus the
unconditional previous-state update. -/
def handStageRight (goS vicS bothOpen : Bool) (s : GState) (inp : TickInput) : GState :=
  let pos := screenPos inp.width inp.height inp.posRight.1 inp.posRight.2
  let h := handTrigger goS vicS bothOpen s.prevHandRight inp.handRight s.lastTriggerRight inp.now pos.1 pos.2 s
  { h.1 with lastTriggerRight := h.2, prevHandRight := inp.handRight }

/-- One simulation tick: the draw callback of GameCanvas.tsx in source order
with rendering elided - screen shake bookkeeping, combo timeout, gesture
snapshot read, Ultimate-Attack pattern emitter, spawn scheduler, IDOL POWER
clear, demon lifecycle loop with compaction, victory check, and the per-hand
edge triggers (Left then Right).  The render loop is registered once in the
mount effect and forever calls the first render's draw closure, which
captured the gameOver and victory cells at their initial value false and
never re-reads them, so goStale and vicStale - the values every flag guard
in the loop actually reads - are the constant false for the whole session;
setGameOver and setVictory update the committed gameOver and victory fields,
which no guard of a later tick observes. -/
def tick (s0 : GState) (inp : TickInput) : GState :=
  let goStale := false
  let vicStale := false
  let bothOpen := !goStale && !vicStale && (inp.handLeft == HandState.openHand) && (inp.handRight == HandState.openHand)
  let s := shakeStage s0 inp.now
  let s := comboStage s inp.now
  let s := finaleStage s bothOpen inp.now
  let s := spawnStage goStale vicStale s inp
  let s := clearStage goStale vicStale bothOpen s inp.now
  let s := demonStage goStale vicStale s inp.now
  let s := checkVictory s vicStale
  let s := handStageLeft goStale vicStale bothOpen s inp
  handStageRight goStale vicStale bothOpen s inp

/-- Run a list of ticks from the initial session state. -/
def runTrace (inps : List TickInput) : GState :=
  inps.foldl tick initState

/-- Convenience constructor for tick inputs on a 1000 by 1000 surface. -/
def mkInput (now : Int) (hl hr : HandState) (pl pr : ℚ × ℚ) (rx ry rs : ℚ) : TickInput :=
  { now := now, handLeft := hl, handRight := hr, posLeft := pl, posRight := pr,
    width := 1000, height := 1000, spawnRx := rx, spawnRy := ry, spawnRs := rs }

/-- Shorthand for the Unknown hand state. -/
def handU : HandState := HandState.unknown

/-- Shorthand for the Open hand state. -/
def handO : HandState := HandState.openHand

/-- Shorthand for the Fist hand state. -/
def handF : HandState := HandState.fist

/-- Zero normalized hand position. -/
def posZero : ℚ × ℚ := (0, 0)

/-- Centre normalized hand position, mapping to surface point (500, 500). -/
def posMid : ℚ × ℚ := (1/2, 1/2)

/-- Emission oracle all of whose draws are zero. -/
def zeroEmission : EmissionRng := ⟨fun _ => (0, 0), fun _ _ => 0⟩

/-- Emission oracle all of whose uniform draws are three quarters. -/
def jitterEmission : EmissionRng := ⟨fun _ => (0, 0), fun _ _ => 3/4⟩

/-- Empty particle subsystem state. -/
def emptyPSys : PSys := ⟨[], []⟩

/-- Sample fully faded-in demon at surface point (500, 500), for witnesses. -/
def demoDemon : Demon :=
  { x := 500, y := 500, size := 80, spawnTime := 0, alpha := 1, isDying := false,
    deathTime := 0, escaped := false }

/-- Number of demons of a list a radius kill test at a given point would kill. -/
def killableCount (ds : List Demon) (x y radius : ℚ) : Nat :=
  ds.countP (fun d => !d.isDying && inKillRadius d x y radius)

/-- Invariant of every reachable particle pool: live particles have positive
alpha and positive decay (all eight emission presets use positive decay
constants and alpha starts at 1). -/
def PoolOk (ps : List Particle) : Prop := ∀ p ∈ ps, 0 < p.alpha ∧ 0 < p.decay

/-- Boundary invariant of the session state machine around lives: lives never
exceeds MAX_LIVES; while the game-over cell is unset there is at least one
life left and the game-over sound has not been played; and at most 8 demons
are live.  No lower bound on lives is part of the invariant: escapes keep
decrementing after the game-over cell is set, because the loop guards read
the cell through the stale first-render closure. -/
def LivesInv (s : GState) : Prop :=
  s.lives ≤ MAX_LIVES ∧
  (s.gameOver = false → 1 ≤ s.lives ∧ s.gameOverSoundPlayed = false) ∧
  s.demons.length ≤ 8

/-- Invariant tying each one-shot sound flag to the number of times the
corresponding terminal sound has been invoked this session. -/
def SoundInv (s : GState) : Prop :=
  s.victorySounds = (if s.victorySoundPlayed then 1 else 0) ∧
  s.gameOverSounds = (if s.gameOverSoundPlayed then 1 else 0)

/-- Trace for C1: two early escapes leave one life; IDOL POWER ramps the kill
count to 29; kill 30 lands via a hand trigger after the victory check of its
tick; the next tick processes the final escape (setting game-over) before the
victory check observes kill count 30 (setting victory). -/
def c1Inputs : List TickInput :=
  [ mkInput 2001 handU handU posZero posZero 0 0 0,
    mkInput 4002 handU handU posZero posZero 0 0 0,
    mkInput 7002 handU handU posZero posZero 0 0 0,
    mkInput 9003 handU handU posZero posZero 0 0 0,
    mkInput 9503 handO handO posZero posZero 0 0 0 ] ++
  (List.range 27).map (fun j =>
    mkInput (9003 + ((j : Int) + 1) * (1961 - 10 * (j : Int))) handO handO posZero posZero 0 0 0) ++
  [ mkInput 56351 handU handU posZero posZero 0 0 0,
    mkInput 57772 handU handU posZero posZero (1/2) (14/25) (1/5),
    mkInput 58772 handO handU posMid posZero 0 0 0,
    mkInput 61352 handU handU posZero posZero 0 0 0 ]

/-- Session state reached after the first 12 ticks of the C1 trace (the
equality is checked by c1_steps1); the 36-tick evaluation of the trace is
decomposed through two such literal milestones to keep each evaluation
shallow. -/
def c1MidA : GState :=
  { demons := [], lives := 1, killCount := 9, gameOver := false, victory := false,
    victorySoundPlayed := false, gameOverSoundPlayed := false, comboCount := 0,
    lastKillTime := 0, lastTriggerLeft := 0, lastTriggerRight := 0,
    prevHandLeft := HandState.openHand, prevHandRight := HandState.openHand,
    lastDemonSpawn := 22310, grandFinaleLastSpawn := 22310,
    shake := { intensity := 0, duration := 0, startTime := 0 },
    victorySounds := 0, gameOverSounds := 0, sessionExplosions := 64 }

/-- Session state reached after the first 24 ticks of the C1 trace (the
equality is checked by c1_steps2). -/
def c1MidB : GState :=
  { demons := [], lives := 1, killCount := 21, gameOver := false, victory := false,
    victorySoundPlayed := false, gameOverSoundPlayed := false, comboCount := 0,
    lastKillTime := 0, lastTriggerLeft := 0, lastTriggerRight := 0,
    prevHandLeft := HandState.openHand, prevHandRight := HandState.openHand,
    lastDemonSpawn := 42842, grandFinaleLastSpawn := 42842,
    shake := { intensity := 0, duration := 0, startTime := 0 },
    victorySounds := 0, gameOverSounds := 0, sessionExplosions := 154 }

/-- Trace for C2: escapes at 7004 and 9004 leave one life; at 14010 the two
remaining overdue demons escape within the same tick - no loop guard ever
observes the game-over cell the first of them sets - driving lives to -1;
the final tick at 19013 shows the decrements continuing after game-over: the
demon spawned at 14010 (spawning also keeps running) escapes and lives falls
to -2. -/
def c2Inputs : List TickInput :=
  [ mkInput 2001 handU handU posZero posZero 0 0 0,
    mkInput 4002 handU handU posZero posZero 0 0 0,
    mkInput 6003 handU handU posZero posZero 0 0 0,
    mkInput 7004 handU handU posZero posZero 0 0 0,
    mkInput 9004 handU handU posZero posZero 0 0 0,
    mkInput 14010 handU handU posZero posZero 0 0 0,
    mkInput 19013 handU handU posZero posZero 0 0 0 ]

/-- Trace for C5: a trigger fires at 1000, the hand closes at 1100, and a
fresh Fist-to-Open edge arrives at 1250, exactly 250 ms after the previous
trigger. -/
def c5Inputs : List TickInput :=
  [ mkInput 1000 handO handU posMid posZero 0 0 0,
    mkInput 1100 handF handU posMid posZero 0 0 0,
    mkInput 1250 handO handU posMid posZero 0 0 0 ]

/-- Trace for C6: a hand-trigger kill at 4500 starts a combo; 100 ms later,
well inside the 1500 ms window, the Ultimate-Attack clear kills a second
demon. -/
def c6Inputs : List TickInput :=
  [ mkInput 2001 handU handU posZero posZero (1/2) (14/25) (1/5),
    mkInput 4002 handU handU posZero posZero 0 0 0,
    mkInput 4500 handO handU posMid posZero 0 0 0,
    mkInput 4600 handO handO posMid posMid 0 0 0 ]

/-- Trace for C8: a demon spawns at 2001 and is killed at 2301 while its
fade-in alpha is only 0.10. -/
def c8Inputs : List TickInput :=
  [ mkInput 2001 handU handU posZero posZero (1/2) (14/25) (1/5),
    mkInput 2301 handO handU posMid posZero 0 0 0 ]

@[simp] theorem flashCoreOf_x (x y scale : ℚ) (g : EmissionRng) : (flashCoreOf x y scale g).x = x := rfl

@[simp] theorem flashCoreOf_y (x y scale : ℚ) (g : EmissionRng) : (flashCoreOf x y scale g).y = y := rfl

@[simp] theorem flashCoreOf_type (x y scale : ℚ) (g : EmissionRng) : (flashCoreOf x y scale g).type = ParticleType.core := rfl

@[simp] theorem flashCoreOf_alpha (x y scale : ℚ) (g : EmissionRng) : (flashCoreOf x y scale g).alpha = 1 := rfl

@[simp] theorem flashCoreOf_decay (x y scale : ℚ) (g : EmissionRng) : (flashCoreOf x y scale g).decay = 0.15 := rfl

@[simp] theorem glowOf_x (x y scale : ℚ) (g : EmissionRng) : (glowOf x y scale g).x = x := rfl

@[simp] theorem glowOf_y (x y scale : ℚ) (g : EmissionRng) : (glowOf x y scale g).y = y := rfl

@[simp] theorem glowOf_type (x y scale : ℚ) (g : EmissionRng) : (glowOf x y scale g).type = ParticleType.glow := rfl

@[simp] theorem glowOf_alpha (x y scale : ℚ) (g : EmissionRng) : (glowOf x y scale g).alpha = 1 := rfl

@[simp] theorem glowOf_decay (x y scale : ℚ) (g : EmissionRng) : (glowOf x y scale g).decay = 0.1 := rfl

@[simp] theorem sparkOf_x (x y scale : ℚ) (g : EmissionRng) (i : Nat) : (sparkOf x y scale g i).x = x := rfl

@[simp] theorem sparkOf_y (x y scale : ℚ) (g : EmissionRng) (i : Nat) : (sparkOf x y scale g i).y = y := rfl

@[simp] theorem sparkOf_type (x y scale : ℚ) (g : EmissionRng) (i : Nat) : (sparkOf x y scale g i).type = ParticleType.spark := rfl

@[simp] theorem sparkOf_alpha (x y scale : ℚ) (g : EmissionRng) (i : Nat) : (sparkOf x y scale g i).alpha = 1 := rfl

@[simp] theorem sparkOf_decay (x y scale : ℚ) (g : EmissionRng) (i : Nat) : (sparkOf x y scale g i).decay = 0.09 := rfl

@[simp] theorem innerFlameOf_x (x y scale : ℚ) (g : EmissionRng) (i : Nat) : (innerFlameOf x y scale g i).x = x := rfl

@[simp] theorem innerFlameOf_y (x y scale : ℚ) (g : EmissionRng) (i : Nat) : (innerFlameOf x y scale g i).y = y := rfl

@[simp] theorem innerFlameOf_type (x y scale : ℚ) (g : EmissionRng) (i : Nat) : (innerFlameOf x y scale g i).type = ParticleType.flame := rfl

@[simp] theorem innerFlameOf_alpha (x y scale : ℚ) (g : EmissionRng) (i : Nat) : (innerFlameOf x y scale g i).alpha = 1 := rfl

@[simp] theorem innerFlameOf_decay (x y scale : ℚ) (g : EmissionRng) (i : Nat) : (innerFlameOf x y scale g i).decay = 0.08 := rfl

@[simp] theorem outerFlameOf_x (x y scale : ℚ) (g : EmissionRng) (i : Nat) : (outerFlameOf x y scale g i).x = x := rfl

@[simp] theorem outerFlameOf_y (x y scale : ℚ) (g : EmissionRng) (i : Nat) : (outerFlameOf x y scale g i).y = y := rfl

@[simp] theorem outerFlameOf_type (x y scale : ℚ) (g : EmissionRng) (i : Nat) : (outerFlameOf x y scale g i).type = ParticleType.flame := rfl

@[simp] theorem outerFlameOf_alpha (x y scale : ℚ) (g : EmissionRng) (i : Nat) : (outerFlameOf x y scale g i).alpha = 1 := rfl

@[simp] theorem outerFlameOf_decay (x y scale : ℚ) (g : EmissionRng) (i : Nat) : (outerFlameOf x y scale g i).decay = 0.07 := rfl

@[simp] theorem debrisOf_x (x y scale : ℚ) (g : EmissionRng) (i : Nat) : (debrisOf x y scale g i).x = x := rfl

@[simp] theorem debrisOf_y (x y scale : ℚ) (g : EmissionRng) (i : Nat) : (debrisOf x y scale g i).y = y := rfl

@[simp] theorem debrisOf_type (x y scale : ℚ) (g : EmissionRng) (i : Nat) : (debrisOf x y scale g i).type = ParticleType.debris := rfl

@[simp] theorem debrisOf_alpha (x y scale : ℚ) (g : EmissionRng) (i : Nat) : (debrisOf x y scale g i).alpha = 1 := rfl

@[simp] theorem debrisOf_decay (x y scale : ℚ) (g : EmissionRng) (i : Nat) : (debrisOf x y scale g i).decay = 0.05 := rfl

@[simp] theorem trailOf_x (x y scale : ℚ) (g : EmissionRng) (i : Nat) : (trailOf x y scale g i).x = x := rfl

@[simp] theorem trailOf_y (x y scale : ℚ) (g : EmissionRng) (i : Nat) : (trailOf x y scale g i).y = y := rfl

@[simp] theorem trailOf_type (x y scale : ℚ) (g : EmissionRng) (i : Nat) : (trailOf x y scale g i).type = ParticleType.trail := rfl

@[simp] theorem trailOf_alpha (x y scale : ℚ) (g : EmissionRng) (i : Nat) : (trailOf x y scale g i).alpha = 1 := rfl

@[simp] theorem trailOf_decay (x y scale : ℚ) (g : EmissionRng) (i : Nat) : (trailOf x y scale g i).decay = 0.06 := rfl

@[simp] theorem smokeOf_x (x y scale : ℚ) (g : EmissionRng) (i : Nat) :
    (smokeOf x y scale g i).x = x + (g.u (42 + i) 0 - 0.5) * 15 := rfl

@[simp] theorem smokeOf_y (x y scale : ℚ) (g : EmissionRng) (i : Nat) :
    (smokeOf x y scale g i).y = y + (g.u (42 + i) 1 - 0.5) * 15 := rfl

@[simp] theorem smokeOf_type (x y scale : ℚ) (g : EmissionRng) (i : Nat) :
    (smokeOf x y scale g i).type = ParticleType.smoke := rfl

@[simp] theorem smokeOf_alpha (x y scale : ℚ) (g : EmissionRng) (i : Nat) :
    (smokeOf x y scale g i).alpha = 1 := rfl

@[simp] theorem smokeOf_decay (x y scale : ℚ) (g : EmissionRng) (i : Nat) :
    (smokeOf x y scale g i).decay = 0.02 := rfl

theorem explosionBurst_length (x y scale : ℚ) (g : EmissionRng) :
    (explosionBurst x y scale g).length = 45 := by
  simp [explosionBurst]

theorem countP_map_const_true {α β : Type} (f : α → β) (p : β → Bool) (l : List α)
    (h : ∀ a, p (f a) = true) : (l.map f).countP p = l.length := by
  induction l with
  | nil => rfl
  | cons a t ih => simp [List.countP_cons, h, ih]

theorem countP_map_const_false {α β : Type} (f : α → β) (p : β → Bool) (l : List α)
    (h : ∀ a, p (f a) = false) : (l.map f).countP p = 0 := by
  induction l with
  | nil => rfl
  | cons a t ih => simp [List.countP_cons, h, ih]

theorem explosionBurst_cases (x y scale : ℚ) (g : EmissionRng) (P : Particle → Prop)
    (h0 : P (flashCoreOf x y scale g)) (h1 : P (glowOf x y scale g))
    (h2 : ∀ i, P (sparkOf x y scale g i)) (h3 : ∀ i, P (innerFlameOf x y scale g i))
    (h4 : ∀ i, P (outerFlameOf x y scale g i)) (h5 : ∀ i, P (debrisOf x y scale g i))
    (h6 : ∀ i, P (trailOf x y scale g i)) (h7 : ∀ i, P (smokeOf x y scale g i)) :
    ∀ q ∈ explosionBurst x y scale g, P q := by
  intro q hq
  rw [explosionBurst] at hq
  rcases List.mem_cons.1 hq with rfl | hq
  · exact h0
  rcases List.mem_cons.1 hq with rfl | hq
  · exact h1
  rcases List.mem_append.1 hq with hq | hq
  rotate_left
  · obtain ⟨i, hi, rfl⟩ := List.mem_map.1 hq
    exact h7 i
  rcases List.mem_append.1 hq with hq | hq
  rotate_left
  · obtain ⟨i, hi, rfl⟩ := List.mem_map.1 hq
    exact h6 i
  rcases List.mem_append.1 hq with hq | hq
  rotate_left
  · obtain ⟨i, hi, rfl⟩ := List.mem_map.1 hq
    exact h5 i
  rcases List.mem_append.1 hq with hq | hq
  rotate_left
  · obtain ⟨i, hi, rfl⟩ := List.mem_map.1 hq
    exact h4 i
  rcases List.mem_append.1 hq with hq | hq
  · obtain ⟨i, hi, rfl⟩ := List.mem_map.1 hq
    exact h2 i
  · obtain ⟨i, hi, rfl⟩ := List.mem_map.1 hq
    exact h3 i

theorem explosionBurst_count_core (x y scale : ℚ) (g : EmissionRng) :
    (explosionBurst x y scale g).countP (fun q => q.type == ParticleType.core) = 1 := by
  simp only [explosionBurst, List.countP_cons, List.countP_append]
  rw [countP_map_const_false _ _ _ (fun a => rfl), countP_map_const_false _ _ _ (fun a => rfl),
      countP_map_const_false _ _ _ (fun a => rfl), countP_map_const_false _ _ _ (fun a => rfl),
      countP_map_const_false _ _ _ (fun a => rfl), countP_map_const_false _ _ _ (fun a => rfl)]
  simp

theorem explosionBurst_count_glow (x y scale : ℚ) (g : EmissionRng) :
    (explosionBurst x y scale g).countP (fun q => q.type == ParticleType.glow) = 1 := by
  simp only [explosionBurst, List.countP_cons, List.countP_append]
  rw [countP_map_const_false _ _ _ (fun a => rfl), countP_map_const_false _ _ _ (fun a => rfl),
      countP_map_const_false _ _ _ (fun a => rfl), countP_map_const_false _ _ _ (fun a => rfl),
      countP_map_const_false _ _ _ (fun a => rfl), countP_map_const_false _ _ _ (fun a => rfl)]
  simp

theorem explosionBurst_count_spark (x y scale : ℚ) (g : EmissionRng) :
    (explosionBurst x y scale g).countP (fun q => q.type == ParticleType.spark) = 8 := by
  simp only [explosionBurst, List.countP_cons, List.countP_append]
  rw [countP_map_const_true _ _ _ (fun a => rfl), countP_map_const_false _ _ _ (fun a => rfl),
      countP_map_const_false _ _ _ (fun a => rfl), countP_map_const_false _ _ _ (fun a => rfl),
      countP_map_const_false _ _ _ (fun a => rfl), countP_map_const_false _ _ _ (fun a => rfl)]
  simp

theorem explosionBurst_count_flame (x y scale : ℚ) (g : EmissionRng) :
    (explosionBurst x y scale g).countP (fun q => q.type == ParticleType.flame) = 16 := by
  simp only [explosionBurst, List.countP_cons, List.countP_append]
  rw [countP_map_const_false _ _ _ (fun a => rfl), countP_map_const_true _ _ _ (fun a => rfl),
      countP_map_const_true _ _ _ (fun a => rfl), countP_map_const_false _ _ _ (fun a => rfl),
      countP_map_const_false _ _ _ (fun a => rfl), countP_map_const_false _ _ _ (fun a => rfl)]
  simp

theorem explosionBurst_count_debris (x y scale : ℚ) (g : EmissionRng) :
    (explosionBurst x y scale g).countP (fun q => q.type == ParticleType.debris) = 10 := by
  simp only [explosionBurst, List.countP_cons, List.countP_append]
  rw [countP_map_const_false _ _ _ (fun a => rfl), countP_map_const_false _ _ _ (fun a => rfl),
      countP_map_const_false _ _ _ (fun a => rfl), countP_map_const_true _ _ _ (fun a => rfl),
      countP_map_const_false _ _ _ (fun a => rfl), countP_map_const_false _ _ _ (fun a => rfl)]
  simp

theorem explosionBurst_count_trail (x y scale : ℚ) (g : EmissionRng) :
    (explosionBurst x y scale g).countP (fun q => q.type == ParticleType.trail) = 6 := by
  simp only [explosionBurst, List.countP_cons, List.countP_append]
  rw [countP_map_const_false _ _ _ (fun a => rfl), countP_map_const_false _ _ _ (fun a => rfl),
      countP_map_const_false _ _ _ (fun a => rfl), countP_map_const_false _ _ _ (fun a => rfl),
      countP_map_const_true _ _ _ (fun a => rfl), countP_map_const_false _ _ _ (fun a => rfl)]
  simp

theorem explosionBurst_count_smoke (x y scale : ℚ) (g : EmissionRng) :
    (explosionBurst x y scale g).countP (fun q => q.type == ParticleType.smoke) = 3 := by
  simp only [explosionBurst, List.countP_cons, List.countP_append]
  rw [countP_map_const_false _ _ _ (fun a => rfl), countP_map_const_false _ _ _ (fun a => rfl),
      countP_map_const_false _ _ _ (fun a => rfl), countP_map_const_false _ _ _ (fun a => rfl),
      countP_map_const_false _ _ _ (fun a => rfl), countP_map_const_true _ _ _ (fun a => rfl)]
  simp

theorem explosionBurst_origin (x y scale : ℚ) (g : EmissionRng) :
    ∀ q ∈ explosionBurst x y scale g, q.type ≠ ParticleType.smoke → q.x = x ∧ q.y = y := by
  refine explosionBurst_cases x y scale g _ ?_ ?_ ?_ ?_ ?_ ?_ ?_ ?_ <;> intros <;> simp_all

theorem explosionBurst_near_origin (x y scale : ℚ) (g : EmissionRng) (hg : EmissionRngOk g) :
    ∀ q ∈ explosionBurst x y scale g,
      x - 15/2 ≤ q.x ∧ q.x ≤ x + 15/2 ∧ y - 15/2 ≤ q.y ∧ q.y ≤ y + 15/2 := by
  refine explosionBurst_cases x y scale g _ ?_ ?_ (fun i => ?_) (fun i => ?_) (fun i => ?_)
    (fun i => ?_) (fun i => ?_) (fun i => ?_)
  · simp
    norm_num
  · simp
    norm_num
  · simp
    norm_num
  · simp
    norm_num
  · simp
    norm_num
  · simp
    norm_num
  · simp
    norm_num
  · simp only [smokeOf_x, smokeOf_y]
    obtain ⟨a1, b1⟩ := hg (42 + i) 0
    obtain ⟨a2, b2⟩ := hg (42 + i) 1
    refine ⟨by nlinarith, by nlinarith, by nlinarith, by nlinarith⟩

/-- C3: corrected form.  A triggerExplosion call on a pool holding strictly
more than 800 live particles changes nothing and produces no audio call;
otherwise it invokes the audio explosion trigger with scale and appends
exactly 45 particles - 1 core flash + 1 glow + 8 sparks + 16 flames (6 inner
+ 10 outer) + 10 debris + 6 trailing embers + 3 smoke puffs - with every
non-smoke particle exactly at the origin and every particle (smoke included)
within 7.5 px of the origin in each coordinate.  The original claim that all
45 particles sit exactly at the origin fails on the jittered smoke puffs (see
the counterexample). -/
theorem c3_amended_theorem (s : PSys) (x y scale : ℚ) (g : EmissionRng) :
    (MAX_PARTICLES < s.particles.length → triggerExplosion s x y scale g = s) ∧
    (s.particles.length ≤ MAX_PARTICLES →
      (triggerExplosion s x y scale g).particles = s.particles ++ explosionBurst x y scale g ∧
      (triggerExplosion s x y scale g).audio = s.audio ++ [scale]) ∧
    (explosionBurst x y scale g).length = 45 ∧
    (explosionBurst x y scale g).countP (fun q => q.type == ParticleType.core) = 1 ∧
    (explosionBurst x y scale g).countP (fun q => q.type == ParticleType.glow) = 1 ∧
    (explosionBurst x y scale g).countP (fun q => q.type == ParticleType.spark) = 8 ∧
    (explosionBurst x y scale g).countP (fun q => q.type == ParticleType.flame) = 16 ∧
    (explosionBurst x y scale g).countP (fun q => q.type == ParticleType.debris) = 10 ∧
    (explosionBurst x y scale g).countP (fun q => q.type == ParticleType.trail) = 6 ∧
    (explosionBurst x y scale g).countP (fun q => q.type == ParticleType.smoke) = 3 ∧
    (∀ q ∈ explosionBurst x y scale g, q.type ≠ ParticleType.smoke → q.x = x ∧ q.y = y) ∧
    (EmissionRngOk g → ∀ q ∈ explosionBurst x y scale g,
      x - 15/2 ≤ q.x ∧ q.x ≤ x + 15/2 ∧ y - 15/2 ≤ q.y ∧ q.y ≤ y + 15/2) := by
  refine ⟨fun h => ?_, fun h => ?_, explosionBurst_length x y scale g,
    explosionBurst_count_core x y scale g, explosionBurst_count_glow x y scale g,
    explosionBurst_count_spark x y scale g, explosionBurst_count_flame x y scale g,
    explosionBurst_count_debris x y scale g, explosionBurst_count_trail x y scale g,
    explosionBurst_count_smoke x y scale g, explosionBurst_origin x y scale g,
    fun hg => explosionBurst_near_origin x y scale g hg⟩
  · simp [triggerExplosion, h]
  · simp [triggerExplosion, Nat.not_lt.2 h]

@[simp] theorem Particle.update_alpha (p : Particle) :
    (Particle.update p).alpha = p.alpha - p.decay := rfl

@[simp] theorem Particle.update_decay (p : Particle) :
    (Particle.update p).decay = p.decay := rfl

theorem explosionBurst_poolOk (x y scale : ℚ) (g : EmissionRng) :
    ∀ q ∈ explosionBurst x y scale g, 0 < q.alpha ∧ 0 < q.decay := by
  refine explosionBurst_cases x y scale g _ ?_ ?_ ?_ ?_ ?_ ?_ ?_ ?_ <;> intros <;>
    constructor <;> simp <;> norm_num

theorem triggerExplosion_poolOk (s : PSys) (x y scale : ℚ) (g : EmissionRng)
    (h : PoolOk s.particles) : PoolOk (triggerExplosion s x y scale g).particles := by
  intro q hq
  unfold triggerExplosion at hq
  by_cases hc : MAX_PARTICLES < s.particles.length
  · rw [if_pos hc] at hq
    exact h q hq
  · rw [if_neg hc] at hq
    rcases List.mem_append.1 hq with hq | hq
    · exact h q hq
    · exact explosionBurst_poolOk x y scale g q hq

theorem step_poolOk (s : PSys) (h : PoolOk s.particles) : PoolOk (PSys.step s).particles := by
  intro q hq
  obtain ⟨hmem, hal⟩ := List.mem_filter.1 hq
  obtain ⟨p, hp, rfl⟩ := List.mem_map.1 hmem
  simp only [Particle.isDead, Bool.not_eq_eq_eq_not, Bool.not_true, decide_eq_false_iff_not,
    not_le] at hal
  exact ⟨hal, by simpa using (h p hp).2⟩

/-- C7: for every particle of a pool satisfying the reachable-pool invariant
(positive alpha and positive decay, established for every emission preset and
preserved by emission and by the per-tick pass), the per-tick update strictly
decreases alpha; the compaction keeps a particle exactly when its updated
alpha is still positive, so a particle is removed on precisely the first tick
at which its alpha drops to or below zero and no dead particle survives into
the next tick. -/
theorem c7_theorem (s : PSys) (h : PoolOk s.particles) :
    (∀ p ∈ s.particles, (Particle.update p).alpha < p.alpha) ∧
    (∀ p ∈ s.particles, (0 < (Particle.update p).alpha ↔ Particle.update p ∈ (PSys.step s).particles)) ∧
    (∀ q ∈ (PSys.step s).particles, 0 < q.alpha) ∧
    PoolOk (PSys.step s).particles ∧
    (∀ x y scale g, PoolOk (triggerExplosion s x y scale g).particles) := by
  refine ⟨?_, ?_, ?_, step_poolOk s h, fun x y scale g => triggerExplosion_poolOk s x y scale g h⟩
  · intro p hp
    have := (h p hp).2
    simp only [Particle.update_alpha]
    linarith
  · intro p hp
    constructor
    · intro ha
      simp only [Particle.update_alpha] at ha
      refine List.mem_filter.2 ⟨List.mem_map_of_mem _ hp, ?_⟩
      simp [Particle.isDead]
      linarith
    · intro hm
      have := (List.mem_filter.1 hm).2
      simp only [Particle.isDead, Bool.not_eq_eq_eq_not, Bool.not_true,
        decide_eq_false_iff_not, not_le] at this
      exact this
  · intro q hq
    exact (step_poolOk s h q hq).1

/-- C10: the live particle pool is hard-bounded by 845 entries: an emission
is suppressed only when the count already exceeds 800, an unsuppressed
emission appends exactly 45 particles, and the per-tick compaction never
grows the pool; hence the count may exceed the 800 ceiling by up to one
burst but never exceeds 800 + 45 = 845, starting from the empty pool. -/
theorem c10_theorem (s : PSys) (x y scale : ℚ) (g : EmissionRng) :
    (s.particles.length ≤ MAX_PARTICLES + 45 →
      (triggerExplosion s x y scale g).particles.length ≤ MAX_PARTICLES + 45) ∧
    (s.particles.length ≤ MAX_PARTICLES →
      (triggerExplosion s x y scale g).particles.length = s.particles.length + 45) ∧
    (MAX_PARTICLES < s.particles.length →
      (triggerExplosion s x y scale g).particles.length = s.particles.length) ∧
    (PSys.step s).particles.length ≤ s.particles.length ∧
    emptyPSys.particles.length = 0 := by
  refine ⟨?_, ?_, ?_, ?_, rfl⟩
  · intro hb
    by_cases hc : MAX_PARTICLES < s.particles.length
    · simp [triggerExplosion, hc]
      omega
    · simp [triggerExplosion, hc, explosionBurst_length]
      omega
  · intro hle
    simp [triggerExplosion, Nat.not_lt.2 hle, explosionBurst_length]
  · intro hc
    simp [triggerExplosion, hc]
  · calc ((s.particles.map Particle.update).filter (fun q => !q.isDead)).length
        ≤ (s.particles.map Particle.update).length := List.length_filter_le _ _
      _ = s.particles.length := List.length_map _ _

@[simp] theorem Demon.update_isDying (d : Demon) : (Demon.update d).isDying = d.isDying := by
  unfold Demon.update
  dsimp only
  split <;> split <;> rfl

@[simp] theorem Demon.update_escaped (d : Demon) : (Demon.update d).escaped = d.escaped := by
  unfold Demon.update
  dsimp only
  split <;> split <;> rfl

@[simp] theorem Demon.update_spawnTime (d : Demon) : (Demon.update d).spawnTime = d.spawnTime := by
  unfold Demon.update
  dsimp only
  split <;> split <;> rfl

@[simp] theorem Demon.kill_isDying (d : Demon) (now : Int) : (Demon.kill d now).isDying = true := rfl

@[simp] theorem Demon.kill_escaped (d : Demon) (now : Int) : (Demon.kill d now).escaped = d.escaped := rfl

@[simp] theorem Demon.escape_isDying (d : Demon) : (Demon.escape d).isDying = true := rfl

@[simp] theorem Demon.escape_escaped (d : Demon) : (Demon.escape d).escaped = true := rfl

theorem handleDemonEscape_spec (s : GState) (goS : Bool) :
    (handleDemonEscape s goS).lives = s.lives - 1 ∧
    (handleDemonEscape s goS).victory = s.victory ∧
    (handleDemonEscape s goS).victorySoundPlayed = s.victorySoundPlayed ∧
    (handleDemonEscape s goS).victorySounds = s.victorySounds ∧
    (handleDemonEscape s goS).demons = s.demons ∧
    (handleDemonEscape s goS).killCount = s.killCount ∧
    (s.gameOver = true → (handleDemonEscape s goS).gameOver = true) := by
  simp only [handleDemonEscape]
  split <;> simp

theorem handleDemonEscape_q (s : GState)
    (h : s.gameOver = false → 1 ≤ s.lives ∧ s.gameOverSoundPlayed = false) :
    (handleDemonEscape s false).gameOver = false →
      1 ≤ (handleDemonEscape s false).lives ∧
      (handleDemonEscape s false).gameOverSoundPlayed = false := by
  simp only [handleDemonEscape]
  split
  · intro hfalse
    simp at hfalse
  · rename_i hcond
    intro hgo
    simp only at hgo
    obtain ⟨hl, hsp⟩ := h hgo
    simp only [hsp, Bool.not_false, Bool.and_true, Bool.true_and, decide_eq_true_eq, not_le] at hcond
    exact ⟨by simp only; omega, by simp only; exact hsp⟩

theorem handleDemonEscape_soundInv (s : GState) (goS : Bool) (h : SoundInv s) :
    SoundInv (handleDemonEscape s goS) := by
  obtain ⟨hv, hg⟩ := h
  unfold SoundInv
  simp only [handleDemonEscape]
  split
  · rename_i hcond
    simp only [Bool.and_eq_true, Bool.not_eq_true, Bool.not_eq_true'] at hcond
    simp [hv, hg, hcond.2]
  · exact ⟨hv, hg⟩

theorem demonStep_spec (goS vicS : Bool) (now : Int) (d : Demon) (s : GState) :
    (demonStep goS vicS now d s).2.lives ≤ s.lives ∧
    s.lives - 1 ≤ (demonStep goS vicS now d s).2.lives ∧
    (demonStep goS vicS now d s).2.victory = s.victory ∧
    (demonStep goS vicS now d s).2.victorySoundPlayed = s.victorySoundPlayed ∧
    (demonStep goS vicS now d s).2.victorySounds = s.victorySounds ∧
    (s.gameOver = true → (demonStep goS vicS now d s).2.gameOver = true) ∧
    ((s.gameOver = false → 1 ≤ s.lives ∧ s.gameOverSoundPlayed = false) →
      ((demonStep goS vicS now d s).2.gameOver = false →
        1 ≤ (demonStep goS vicS now d s).2.lives ∧
        (demonStep goS vicS now d s).2.gameOverSoundPlayed = false)) ∧
    (SoundInv s → SoundInv (demonStep goS vicS now d s).2) := by
  unfold demonStep
  by_cases hb : (!goS && !vicS) = true
  · simp only [Bool.and_eq_true, Bool.not_eq_true'] at hb
    obtain ⟨hg, hv⟩ := hb
    subst hg
    subst hv
    simp only [Bool.not_false, Bool.and_self, if_true]
    by_cases he : d.shouldEscape now = true
    · simp only [he, if_true]
      obtain ⟨e1, e2, e3, e4, e5, e6, e7⟩ := handleDemonEscape_spec s false
      refine ⟨by omega, by omega, e2, e3, e4, e7, handleDemonEscape_q s, handleDemonEscape_soundInv s false⟩
    · simp only [Bool.not_eq_true] at he
      simp [he]
  · rw [if_neg (by simpa using hb)]
    simp

theorem demonStep_inactive (goS vicS : Bool) (now : Int) (d : Demon) (s : GState)
    (h : goS = true ∨ vicS = true) : demonStep goS vicS now d s = (d, s) := by
  unfold demonStep
  rcases h with h | h <;> simp [h]

@[simp] theorem demonsPass_nil (goS vicS : Bool) (now : Int) (s : GState) :
    demonsPass goS vicS now [] s = ([], s) := rfl

theorem demonsPass_cons_snd (goS vicS : Bool) (now : Int) (d : Demon) (t : List Demon) (s : GState) :
    (demonsPass goS vicS now (d :: t) s).2 =
      (demonsPass goS vicS now t (demonStep goS vicS now d s).2).2 := rfl

theorem demonsPass_cons_fst (goS vicS : Bool) (now : Int) (d : Demon) (t : List Demon) (s : GState) :
    (demonsPass goS vicS now (d :: t) s).1 =
      if (demonStep goS vicS now d s).1.isDead then
        (demonsPass goS vicS now t (demonStep goS vicS now d s).2).1
      else (demonStep goS vicS now d s).1 :: (demonsPass goS vicS now t (demonStep goS vicS now d s).2).1 := rfl

theorem demonsPass_spec (goS vicS : Bool) (now : Int) (ds : List Demon) :
    ∀ (s : GState),
      (demonsPass goS vicS now ds s).2.lives ≤ s.lives ∧
      s.lives - ds.length ≤ (demonsPass goS vicS now ds s).2.lives ∧
      (demonsPass goS vicS now ds s).2.victory = s.victory ∧
      (demonsPass goS vicS now ds s).2.victorySoundPlayed = s.victorySoundPlayed ∧
      (demonsPass goS vicS now ds s).2.victorySounds = s.victorySounds ∧
      (s.gameOver = true → (demonsPass goS vicS now ds s).2.gameOver = true) ∧
      ((s.gameOver = false → 1 ≤ s.lives ∧ s.gameOverSoundPlayed = false) →
        ((demonsPass goS vicS now ds s).2.gameOver = false →
          1 ≤ (demonsPass goS vicS now ds s).2.lives ∧
          (demonsPass goS vicS now ds s).2.gameOverSoundPlayed = false)) ∧
      (SoundInv s → SoundInv (demonsPass goS vicS now ds s).2) ∧
      (demonsPass goS vicS now ds s).1.length ≤ ds.length := by
  induction ds with
  | nil =>
    intro s
    simp
  | cons d t ih =>
    intro s
    obtain ⟨a1, a2, a3, a4, a5, a6, a7, a8⟩ := demonStep_spec goS vicS now d s
    obtain ⟨b1, b2, b3, b4, b5, b6, b7, b8, b9⟩ := ih (demonStep goS vicS now d s).2
    rw [demonsPass_cons_snd]
    refine ⟨by omega, ?_, by rw [b3, a3], by rw [b4, a4], by rw [b5, a5],
      fun h => b6 (a6 h), fun h hgo => b7 (a7 h) hgo, fun h => b8 (a8 h), ?_⟩
    · have hlen : ((d :: t).length : Int) = (t.length : Int) + 1 := by
        simp
      omega
    · rw [demonsPass_cons_fst]
      split
      · exact le_trans b9 (Nat.le_succ _)
      · simpa using b9

theorem demonsPass_inactive (goS vicS : Bool) (now : Int) (ds : List Demon)
    (h : goS = true ∨ vicS = true) :
    ∀ (s : GState), (demonsPass goS vicS now ds s).2 = s := by
  induction ds with
  | nil => intro s; simp
  | cons d t ih =>
    intro s
    rw [demonsPass_cons_snd, demonStep_inactive goS vicS now d s h]
    exact ih s

theorem demonStep_snd_false (now : Int) (d : Demon) (s : GState) :
    (demonStep false false now d s).2 =
      if d.shouldEscape now then handleDemonEscape s false else s := by
  simp only [demonStep, Bool.not_false, Bool.and_self, if_true]
  split <;> rfl

theorem handleDemonEscape_fatal (s : GState) (hl : s.lives ≤ 1)
    (hgs : s.gameOverSoundPlayed = false) :
    (handleDemonEscape s false).gameOver = true := by
  simp only [handleDemonEscape]
  split
  · rfl
  · rename_i hc
    exfalso
    apply hc
    simp [hgs]
    omega

theorem demonsPass_fatal (now : Int) (ds : List Demon) :
    ∀ s : GState,
      s.gameOver = true ∨
        (s.gameOverSoundPlayed = false ∧ s.lives ≤ 1 ∧
          ∃ d ∈ ds, d.isDying = false ∧ d.escaped = false ∧
            DEMON_ESCAPE_TIME < now - d.spawnTime) →
      (demonsPass false false now ds s).2.gameOver = true := by
  induction ds with
  | nil =>
    intro s h
    rcases h with h | ⟨_, _, d, hd, _⟩
    · simpa using h
    · exact absurd hd (List.not_mem_nil d)
  | cons d t ih =>
    intro s h
    rw [demonsPass_cons_snd]
    rcases h with h | ⟨hgs, hl, e, he, h1, h2, h3⟩
    · apply ih
      left
      obtain ⟨_, _, _, _, _, a6, _⟩ := demonStep_spec false false now d s
      exact a6 h
    · rcases List.mem_cons.1 he with heq | he
      · subst heq
        apply ih
        left
        rw [demonStep_snd_false]
        have hse : e.shouldEscape now = true := by
          simp [Demon.shouldEscape, h1, h2, h3]
        rw [if_pos hse]
        exact handleDemonEscape_fatal s hl hgs
      · by_cases hse : d.shouldEscape now = true
        · apply ih
          left
          rw [demonStep_snd_false, if_pos hse]
          exact handleDemonEscape_fatal s hl hgs
        · apply ih
          right
          rw [demonStep_snd_false, if_neg hse]
          exact ⟨hgs, hl, e, he, h1, h2, h3⟩

theorem checkVictory_spec (s : GState) (vicS : Bool) :
    (checkVictory s vicS).lives = s.lives ∧
    (checkVictory s vicS).gameOver = s.gameOver ∧
    (checkVictory s vicS).gameOverSoundPlayed = s.gameOverSoundPlayed ∧
    (checkVictory s vicS).gameOverSounds = s.gameOverSounds ∧
    (checkVictory s vicS).demons = s.demons ∧
    (checkVictory s vicS).killCount = s.killCount ∧
    (checkVictory s vicS).comboCount = s.comboCount ∧
    (checkVictory s vicS).lastKillTime = s.lastKillTime ∧
    (s.victory = true → (checkVictory s vicS).victory = true) ∧
    (vicS = true → checkVictory s vicS = s) := by
  unfold checkVictory
  split <;> simp_all

theorem checkVictory_soundInv (s : GState) (vicS : Bool) (h : SoundInv s) :
    SoundInv (checkVictory s vicS) := by
  obtain ⟨hv, hg⟩ := h
  unfold SoundInv checkVictory
  split
  · rename_i hcond
    simp only [Bool.and_eq_true, Bool.not_eq_true'] at hcond
    simp [hv, hg, hcond.2]
  · exact ⟨hv, hg⟩

@[simp] theorem checkVictory_gameOver (u : GState) (vicS : Bool) :
    (checkVictory u vicS).gameOver = u.gameOver := (checkVictory_spec u vicS).2.1

theorem checkVictory_victory_mono (u : GState) (vicS : Bool) (h : u.victory = true) :
    (checkVictory u vicS).victory = true := by
  unfold checkVictory
  split
  · rfl
  · exact h

@[simp] theorem triggerScreenShake_lives (s : GState) (i : ℚ) (du now : Int) :
    (triggerScreenShake s i du now).lives = s.lives := rfl

@[simp] theorem triggerScreenShake_gameOver (s : GState) (i : ℚ) (du now : Int) :
    (triggerScreenShake s i du now).gameOver = s.gameOver := rfl

theorem killDemonsGo_cons (now : Int) (x y radius : ℚ) (d : Demon) (t : List Demon) (s : GState) :
    killDemonsGo now x y radius (d :: t) s =
      if !d.isDying && inKillRadius d x y radius then
        (d.kill now :: (killDemonsGo now x y radius t (killState s now)).1,
         (killDemonsGo now x y radius t (killState s now)).2)
      else
        (d :: (killDemonsGo now x y radius t s).1, (killDemonsGo now x y radius t s).2) := rfl

@[simp] theorem killState_lives (s : GState) (now : Int) : (killState s now).lives = s.lives := rfl

@[simp] theorem killState_gameOver (s : GState) (now : Int) : (killState s now).gameOver = s.gameOver := rfl

@[simp] theorem killState_victory (s : GState) (now : Int) : (killState s now).victory = s.victory := rfl

@[simp] theorem killState_victorySoundPlayed (s : GState) (now : Int) :
    (killState s now).victorySoundPlayed = s.victorySoundPlayed := rfl

@[simp] theorem killState_gameOverSoundPlayed (s : GState) (now : Int) :
    (killState s now).gameOverSoundPlayed = s.gameOverSoundPlayed := rfl

@[simp] theorem killState_victorySounds (s : GState) (now : Int) :
    (killState s now).victorySounds = s.victorySounds := rfl

@[simp] theorem killState_gameOverSounds (s : GState) (now : Int) :
    (killState s now).gameOverSounds = s.gameOverSounds := rfl

@[simp] theorem killState_demons (s : GState) (now : Int) : (killState s now).demons = s.demons := rfl

@[simp] theorem killState_sessionExplosions (s : GState) (now : Int) :
    (killState s now).sessionExplosions = s.sessionExplosions := rfl

@[simp] theorem killState_killCount (s : GState) (now : Int) :
    (killState s now).killCount = s.killCount + 1 := rfl

@[simp] theorem killState_lastKillTime (s : GState) (now : Int) :
    (killState s now).lastKillTime = now := rfl

@[simp] theorem killState_comboCount (s : GState) (now : Int) :
    (killState s now).comboCount =
      if now - s.lastKillTime < COMBO_TIMEOUT then s.comboCount + 1 else 1 := rfl

theorem killDemonsGo_spec (now : Int) (x y radius : ℚ) (ds : List Demon) :
    ∀ (s : GState),
      (killDemonsGo now x y radius ds s).2.lives = s.lives ∧
      (killDemonsGo now x y radius ds s).2.gameOver = s.gameOver ∧
      (killDemonsGo now x y radius ds s).2.victory = s.victory ∧
      (killDemonsGo now x y radius ds s).2.victorySoundPlayed = s.victorySoundPlayed ∧
      (killDemonsGo now x y radius ds s).2.gameOverSoundPlayed = s.gameOverSoundPlayed ∧
      (killDemonsGo now x y radius ds s).2.victorySounds = s.victorySounds ∧
      (killDemonsGo now x y radius ds s).2.gameOverSounds = s.gameOverSounds ∧
      (killDemonsGo now x y radius ds s).2.demons = s.demons ∧
      (killDemonsGo now x y radius ds s).2.sessionExplosions = s.sessionExplosions ∧
      (killDemonsGo now x y radius ds s).1.length = ds.length := by
  induction ds with
  | nil => intro s; simp [killDemonsGo]
  | cons d t ih =>
    intro s
    rw [killDemonsGo_cons]
    split
    · obtain ⟨c1, c2, c3, c4, c5, c6, c7, c8, c9, c10⟩ := ih (killState s now)
      simp_all
    · obtain ⟨c1, c2, c3, c4, c5, c6, c7, c8, c9, c10⟩ := ih s
      simp_all

theorem killDemonsGo_demons (now : Int) (x y radius : ℚ) (ds : List Demon) :
    ∀ (s : GState),
      (killDemonsGo now x y radius ds s).1 =
        ds.map (fun d => if !d.isDying && inKillRadius d x y radius then d.kill now else d) := by
  induction ds with
  | nil => intro s; simp [killDemonsGo]
  | cons d t ih =>
    intro s
    rw [killDemonsGo_cons]
    split
    · rename_i hc
      simp only [Bool.and_eq_true, Bool.not_eq_true'] at hc
      simp [hc.1, hc.2, ih (killState s now)]
    · rename_i hc
      have hc2 : ¬(d.isDying = false ∧ inKillRadius d x y radius = true) := by
        intro hx
        simp [hx.1, hx.2] at hc
      simp [ih s]
      rw [if_neg hc2]

theorem killDemonsGo_combo (now : Int) (x y radius : ℚ) (ds : List Demon) :
    ∀ (s : GState),
      (killDemonsGo now x y radius ds s).2.killCount =
        s.killCount + killableCount ds x y radius ∧
      (killableCount ds x y radius = 0 →
        (killDemonsGo now x y radius ds s).2.comboCount = s.comboCount ∧
        (killDemonsGo now x y radius ds s).2.lastKillTime = s.lastKillTime) ∧
      (0 < killableCount ds x y radius →
        (killDemonsGo now x y radius ds s).2.lastKillTime = now ∧
        (killDemonsGo now x y radius ds s).2.comboCount =
          (if now - s.lastKillTime < COMBO_TIMEOUT then s.comboCount else 0) +
            killableCount ds x y radius) := by
  induction ds with
  | nil =>
    intro s
    simp [killDemonsGo, killableCount]
  | cons d t ih =>
    intro s
    rw [killDemonsGo_cons]
    by_cases hc : (!d.isDying && inKillRadius d x y radius) = true
    · rw [if_pos hc]
      have hkc : killableCount (d :: t) x y radius = killableCount t x y radius + 1 := by
        simp [killableCount, List.countP_cons, hc]
      obtain ⟨k1, k2, k3⟩ := ih (killState s now)
      refine ⟨?_, ?_, ?_⟩
      · simp only at k1 ⊢
        rw [k1, killState_killCount, hkc]
        omega
      · intro hz
        rw [hkc] at hz
        omega
      · intro _
        by_cases ht : killableCount t x y radius = 0
        · obtain ⟨c1, c2⟩ := k2 ht
          simp only at c1 c2 ⊢
          rw [hkc, ht, c1, c2, killState_comboCount, killState_lastKillTime]
          constructor
          · rfl
          · split <;> omega
        · obtain ⟨c1, c2⟩ := k3 (Nat.pos_of_ne_zero ht)
          simp only at c1 c2 ⊢
          rw [hkc, c1, c2, killState_lastKillTime, killState_comboCount]
          refine ⟨rfl, ?_⟩
          have : now - now < COMBO_TIMEOUT := by
            unfold COMBO_TIMEOUT
            omega
          rw [if_pos this]
          split <;> omega
    · rw [if_neg hc]
      have hkc : killableCount (d :: t) x y radius = killableCount t x y radius := by
        simp only [Bool.not_eq_true] at hc
        simp [killableCount, List.countP_cons, hc]
      obtain ⟨k1, k2, k3⟩ := ih s
      refine ⟨?_, ?_, ?_⟩
      · simp only at k1 ⊢
        rw [k1, hkc]
      · intro hz
        rw [hkc] at hz
        exact k2 hz
      · intro hp
        rw [hkc] at hp
        obtain ⟨c1, c2⟩ := k3 hp
        simp only at c1 c2 ⊢
        rw [hkc]
        exact ⟨c1, c2⟩

theorem killDemonsNearPoint_fields (s : GState) (now : Int) (x y radius : ℚ) :
    (killDemonsNearPoint s now x y radius).lives = s.lives ∧
    (killDemonsNearPoint s now x y radius).gameOver = s.gameOver ∧
    (killDemonsNearPoint s now x y radius).victory = s.victory ∧
    (killDemonsNearPoint s now x y radius).victorySoundPlayed = s.victorySoundPlayed ∧
    (killDemonsNearPoint s now x y radius).gameOverSoundPlayed = s.gameOverSoundPlayed ∧
    (killDemonsNearPoint s now x y radius).victorySounds = s.victorySounds ∧
    (killDemonsNearPoint s now x y radius).gameOverSounds = s.gameOverSounds ∧
    (killDemonsNearPoint s now x y radius).demons.length = s.demons.length := by
  obtain ⟨c1, c2, c3, c4, c5, c6, c7, c8, c9, c10⟩ := killDemonsGo_spec now x y radius s.demons s
  unfold killDemonsNearPoint
  exact ⟨c1, c2, c3, c4, c5, c6, c7, c10⟩

/-- C4: in an active session, a demon that is neither dying nor escaped
transitions to Dying(escaped) on precisely the first tick processed after its
5000 ms escape deadline, and that one transition decrements lives by exactly
one; before the deadline nothing changes, and once the demon is dying (in
particular while it fades out) later ticks leave both its dying status and
the lives count untouched, so the escape of one demon costs exactly one
life. -/
theorem c4_theorem (d : Demon) (now : Int) (s : GState) :
    (d.isDying = false → d.escaped = false → DEMON_ESCAPE_TIME < now - d.spawnTime →
      (demonStep false false now d s).1.escaped = true ∧
      (demonStep false false now d s).1.isDying = true ∧
      (demonStep false false now d s).2.lives = s.lives - 1) ∧
    (d.isDying = false → d.escaped = false → now - d.spawnTime ≤ DEMON_ESCAPE_TIME →
      (demonStep false false now d s).1.escaped = false ∧
      (demonStep false false now d s).1.isDying = false ∧
      (demonStep false false now d s).2 = s) ∧
    (d.isDying = true →
      (demonStep false false now d s).1.isDying = true ∧
      (demonStep false false now d s).2 = s) := by
  refine ⟨fun h1 h2 h3 => ?_, fun h1 h2 h3 => ?_, fun h1 => ?_⟩
  · have hse : d.shouldEscape now = true := by
      simp [Demon.shouldEscape, h1, h2, h3]
    simp [demonStep, hse, (handleDemonEscape_spec s false).1]
  · have hse : d.shouldEscape now = false := by
      simp [Demon.shouldEscape, h1, h2]
      omega
    simp [demonStep, hse, h1, h2]
  · have hse : d.shouldEscape now = false := by
      simp [Demon.shouldEscape, h1]
    simp [demonStep, hse, h1]

/-- C5: corrected form.  With the session active and the hand not in
Ultimate-Attack mode, the per-hand trigger fires - one explosion plus the
radius-120 kill test and a debounce refresh - exactly when the hand
transitions from a non-Open state to Open and STRICTLY MORE than 250 ms have
elapsed since the last trigger of that hand; a hand staying Open fires
nothing, and an edge arriving 250 ms or less after the previous trigger is
rejected.  The original claim allowed a trigger at exactly 250 ms elapsed
(at least 250 ms), which the code rejects (see the counterexample). -/
theorem c5_amended_theorem (goS vicS bothOpen : Bool) (prev cur : HandState)
    (lastT now : Int) (sx sy : ℚ) (s : GState) :
    (goS = false → vicS = false → bothOpen = false → cur = HandState.openHand →
      prev ≠ HandState.openHand → 250 < now - lastT →
      handTrigger goS vicS bothOpen prev cur lastT now sx sy s =
        (killDemonsNearPoint { s with sessionExplosions := s.sessionExplosions + 1 } now sx sy 120,
         now)) ∧
    (now - lastT ≤ 250 →
      handTrigger goS vicS bothOpen prev cur lastT now sx sy s = (s, lastT)) ∧
    (prev = HandState.openHand →
      handTrigger goS vicS bothOpen prev cur lastT now sx sy s = (s, lastT)) ∧
    (cur ≠ HandState.openHand →
      handTrigger goS vicS bothOpen prev cur lastT now sx sy s = (s, lastT)) ∧
    (bothOpen = true →
      handTrigger goS vicS bothOpen prev cur lastT now sx sy s = (s, lastT)) := by
  unfold handTrigger
  refine ⟨fun h1 h2 h3 h4 h5 h6 => ?_, fun h6 => ?_, fun h5 => ?_, fun h4 => ?_, fun h3 => ?_⟩
  · subst h1
    subst h2
    subst h3
    subst h4
    simp only [Bool.not_false, Bool.and_self, if_true]
    rw [if_pos]
    simp only [beq_self_eq_true, Bool.true_and, Bool.and_eq_true, Bool.not_eq_true',
      beq_eq_false_iff_ne, decide_eq_true_eq]
    exact ⟨h5, h6⟩
  · split
    · rw [if_neg]
      simp only [Bool.and_eq_true, decide_eq_true_eq, not_and]
      intro _ _
      omega
    · rfl
  · split
    · rw [if_neg]
      simp [h5]
    · rfl
  · split
    · rw [if_neg]
      simp only [Bool.and_eq_true, Bool.not_eq_true', beq_eq_false_iff_ne, decide_eq_true_eq,
        not_and, beq_iff_eq]
      intro hx hlt
      exact h4 hx.1
    · rfl
  · simp [h3]

/-- C6: corrected form.  Kills performed by the radius hit test update the
combo as the claim describes: with k demons killed in one call (k at least
one), the last-kill timestamp is refreshed to now and the combo count becomes
comboCount + k inside the 1500 ms window and k otherwise - every such kill
increments the count and extends the window.  Kills performed by the
Ultimate-Attack clear-all path, however, leave both the combo count and the
last-kill timestamp completely untouched while still incrementing the kill
count, contradicting the claim for Ultimate-Attack kills (see the
counterexample). -/
theorem c6_amended_theorem (s : GState) (now : Int) (x y radius : ℚ) :
    ((clearAllDemons s now).comboCount = s.comboCount ∧
     (clearAllDemons s now).lastKillTime = s.lastKillTime ∧
     (clearAllDemons s now).killCount =
       s.killCount + s.demons.countP (fun d => !d.isDying)) ∧
    ((killDemonsNearPoint s now x y radius).killCount =
       s.killCount + killableCount s.demons x y radius ∧
     (killableCount s.demons x y radius = 0 →
       (killDemonsNearPoint s now x y radius).comboCount = s.comboCount ∧
       (killDemonsNearPoint s now x y radius).lastKillTime = s.lastKillTime) ∧
     (0 < killableCount s.demons x y radius →
       (killDemonsNearPoint s now x y radius).lastKillTime = now ∧
       (killDemonsNearPoint s now x y radius).comboCount =
         (if now - s.lastKillTime < COMBO_TIMEOUT then s.comboCount else 0) +
           killableCount s.demons x y radius)) := by
  obtain ⟨k1, k2, k3⟩ := killDemonsGo_combo now x y radius s.demons s
  exact ⟨⟨rfl, rfl, rfl⟩, k1, k2, k3⟩

/-- C8: corrected form.  Eligibility for the two Alive-to-Dying transitions
does not depend on the fade-in at all: the escape test reads only the dying
flag, the escaped flag and the spawn time, the kill test reads only the dying
flag and the geometry, and both are invariant under any change of the alpha
value; killDemonsNearPoint kills exactly the non-dying demons inside the
radius, whatever their alpha.  The original claim that the transitions can
only occur at alpha 1.0 fails: a freshly spawned demon still fading in can be
killed (see the counterexample). -/
theorem c8_amended_theorem (d : Demon) (a : ℚ) (now : Int) (x y radius : ℚ) (s : GState) :
    Demon.shouldEscape { d with alpha := a } now = d.shouldEscape now ∧
    inKillRadius { d with alpha := a } x y radius = inKillRadius d x y radius ∧
    (d.shouldEscape now = true ↔
      (d.isDying = false ∧ d.escaped = false ∧ DEMON_ESCAPE_TIME < now - d.spawnTime)) ∧
    (killDemonsNearPoint s now x y radius).demons =
      s.demons.map (fun e => if !e.isDying && inKillRadius e x y radius then e.kill now else e) := by
  refine ⟨rfl, rfl, ?_, ?_⟩
  · simp [Demon.shouldEscape, and_assoc]
  · unfold killDemonsNearPoint
    exact killDemonsGo_demons now x y radius s.demons s

@[simp] theorem shakeStage_gameOver (s : GState) (now : Int) :
    (shakeStage s now).gameOver = s.gameOver := by
  unfold shakeStage
  split <;> rfl

@[simp] theorem shakeStage_victory (s : GState) (now : Int) :
    (shakeStage s now).victory = s.victory := by
  unfold shakeStage
  split <;> rfl

@[simp] theorem comboStage_gameOver (s : GState) (now : Int) :
    (comboStage s now).gameOver = s.gameOver := by
  unfold comboStage
  split <;> rfl

@[simp] theorem comboStage_victory (s : GState) (now : Int) :
    (comboStage s now).victory = s.victory := by
  unfold comboStage
  split <;> rfl

@[simp] theorem finaleStage_gameOver (s : GState) (b : Bool) (now : Int) :
    (finaleStage s b now).gameOver = s.gameOver := by
  unfold finaleStage
  split <;> rfl

@[simp] theorem finaleStage_victory (s : GState) (b : Bool) (now : Int) :
    (finaleStage s b now).victory = s.victory := by
  unfold finaleStage
  split <;> rfl

@[simp] theorem spawnStage_gameOver (goS vicS : Bool) (s : GState) (inp : TickInput) :
    (spawnStage goS vicS s inp).gameOver = s.gameOver := by
  unfold spawnStage
  split <;> rfl

@[simp] theorem spawnStage_victory (goS vicS : Bool) (s : GState) (inp : TickInput) :
    (spawnStage goS vicS s inp).victory = s.victory := by
  unfold spawnStage
  split <;> rfl

@[simp] theorem clearStage_gameOver (goS vicS b : Bool) (s : GState) (now : Int) :
    (clearStage goS vicS b s now).gameOver = s.gameOver := by
  unfold clearStage
  split <;> rfl

@[simp] theorem clearStage_victory (goS vicS b : Bool) (s : GState) (now : Int) :
    (clearStage goS vicS b s now).victory = s.victory := by
  unfold clearStage
  split <;> rfl

@[simp] theorem shakeStage_demons (s : GState) (now : Int) :
    (shakeStage s now).demons = s.demons := by
  unfold shakeStage
  split <;> rfl

@[simp] theorem comboStage_demons (s : GState) (now : Int) :
    (comboStage s now).demons = s.demons := by
  unfold comboStage
  split <;> rfl

@[simp] theorem finaleStage_demons (s : GState) (b : Bool) (now : Int) :
    (finaleStage s b now).demons = s.demons := by
  unfold finaleStage
  split <;> rfl

@[simp] theorem shakeStage_gameOverSoundPlayed (s : GState) (now : Int) :
    (shakeStage s now).gameOverSoundPlayed = s.gameOverSoundPlayed := by
  unfold shakeStage
  split <;> rfl

@[simp] theorem comboStage_gameOverSoundPlayed (s : GState) (now : Int) :
    (comboStage s now).gameOverSoundPlayed = s.gameOverSoundPlayed := by
  unfold comboStage
  split <;> rfl

@[simp] theorem finaleStage_gameOverSoundPlayed (s : GState) (b : Bool) (now : Int) :
    (finaleStage s b now).gameOverSoundPlayed = s.gameOverSoundPlayed := by
  unfold finaleStage
  split <;> rfl

@[simp] theorem spawnStage_gameOverSoundPlayed (goS vicS : Bool) (s : GState) (inp : TickInput) :
    (spawnStage goS vicS s inp).gameOverSoundPlayed = s.gameOverSoundPlayed := by
  unfold spawnStage
  split <;> rfl

@[simp] theorem clearStage_gameOverSoundPlayed (goS vicS b : Bool) (s : GState) (now : Int) :
    (clearStage goS vicS b s now).gameOverSoundPlayed = s.gameOverSoundPlayed := by
  unfold clearStage
  split <;> rfl

@[simp] theorem clearStage_false (goS vicS : Bool) (s : GState) (now : Int) :
    clearStage goS vicS false s now = s := by
  unfold clearStage
  simp

@[simp] theorem clearStage_demons_length (goS vicS b : Bool) (s : GState) (now : Int) :
    (clearStage goS vicS b s now).demons.length = s.demons.length := by
  unfold clearStage clearAllDemons
  split
  · simp
  · rfl

theorem spawnStage_mem (goS vicS : Bool) (s : GState) (inp : TickInput) {d : Demon}
    (h : d ∈ s.demons) : d ∈ (spawnStage goS vicS s inp).demons := by
  unfold spawnStage
  split
  · exact List.mem_append_left _ h
  · exact h

theorem spawnStage_demons_le (goS vicS : Bool) (s : GState) (inp : TickInput)
    (h : s.demons.length ≤ 8) : (spawnStage goS vicS s inp).demons.length ≤ 8 := by
  unfold spawnStage
  split
  · rename_i hc
    simp only [Bool.and_eq_true, decide_eq_true_eq] at hc
    simp only [List.length_append, List.length_cons, List.length_nil]
    omega
  · exact h

@[simp] theorem demonStage_victory (goS vicS : Bool) (s : GState) (now : Int) :
    (demonStage goS vicS s now).victory = s.victory := by
  obtain ⟨_, _, p3, _⟩ := demonsPass_spec goS vicS now s.demons s
  simp only [demonStage]
  exact p3

theorem demonStage_gameOver_mono (goS vicS : Bool) (s : GState) (now : Int)
    (h : s.gameOver = true) : (demonStage goS vicS s now).gameOver = true := by
  obtain ⟨_, _, _, _, _, p6, _⟩ := demonsPass_spec goS vicS now s.demons s
  simp only [demonStage]
  exact p6 h

theorem demonStage_lives_bounds (goS vicS : Bool) (s : GState) (now : Int) :
    (demonStage goS vicS s now).lives ≤ s.lives ∧
    s.lives - s.demons.length ≤ (demonStage goS vicS s now).lives := by
  obtain ⟨p1, p2, _⟩ := demonsPass_spec goS vicS now s.demons s
  simp only [demonStage]
  exact ⟨p1, p2⟩

theorem demonStage_fatal (s : GState) (now : Int)
    (hgs : s.gameOverSoundPlayed = false) (hl : s.lives ≤ 1)
    (hd : ∃ d ∈ s.demons, d.isDying = false ∧ d.escaped = false ∧
      DEMON_ESCAPE_TIME < now - d.spawnTime) :
    (demonStage false false s now).gameOver = true := by
  simp only [demonStage]
  exact demonsPass_fatal now s.demons s (Or.inr ⟨hgs, hl, hd⟩)

theorem handTrigger_fields (goS vicS bothOpen : Bool) (prev cur : HandState)
    (lastT now : Int) (sx sy : ℚ) (s : GState) :
    (handTrigger goS vicS bothOpen prev cur lastT now sx sy s).1.lives = s.lives ∧
    (handTrigger goS vicS bothOpen prev cur lastT now sx sy s).1.gameOver = s.gameOver ∧
    (handTrigger goS vicS bothOpen prev cur lastT now sx sy s).1.victory = s.victory ∧
    (handTrigger goS vicS bothOpen prev cur lastT now sx sy s).1.victorySoundPlayed = s.victorySoundPlayed ∧
    (handTrigger goS vicS bothOpen prev cur lastT now sx sy s).1.gameOverSoundPlayed = s.gameOverSoundPlayed ∧
    (handTrigger goS vicS bothOpen prev cur lastT now sx sy s).1.victorySounds = s.victorySounds ∧
    (handTrigger goS vicS bothOpen prev cur lastT now sx sy s).1.gameOverSounds = s.gameOverSounds ∧
    (handTrigger goS vicS bothOpen prev cur lastT now sx sy s).1.demons.length = s.demons.length := by
  unfold handTrigger
  split
  · split
    · exact killDemonsNearPoint_fields _ now sx sy 120
    · exact ⟨rfl, rfl, rfl, rfl, rfl, rfl, rfl, rfl⟩
  · exact ⟨rfl, rfl, rfl, rfl, rfl, rfl, rfl, rfl⟩

theorem handStageLeft_fields (goS vicS bothOpen : Bool) (s : GState) (inp : TickInput) :
    (handStageLeft goS vicS bothOpen s inp).lives = s.lives ∧
    (handStageLeft goS vicS bothOpen s inp).gameOver = s.gameOver ∧
    (handStageLeft goS vicS bothOpen s inp).victory = s.victory ∧
    (handStageLeft goS vicS bothOpen s inp).victorySoundPlayed = s.victorySoundPlayed ∧
    (handStageLeft goS vicS bothOpen s inp).gameOverSoundPlayed = s.gameOverSoundPlayed ∧
    (handStageLeft goS vicS bothOpen s inp).victorySounds = s.victorySounds ∧
    (handStageLeft goS vicS bothOpen s inp).gameOverSounds = s.gameOverSounds ∧
    (handStageLeft goS vicS bothOpen s inp).demons.length = s.demons.length := by
  unfold handStageLeft
  exact handTrigger_fields goS vicS bothOpen s.prevHandLeft inp.handLeft s.lastTriggerLeft
    inp.now _ _ s

theorem handStageRight_fields (goS vicS bothOpen : Bool) (s : GState) (inp : TickInput) :
    (handStageRight goS vicS bothOpen s inp).lives = s.lives ∧
    (handStageRight goS vicS bothOpen s inp).gameOver = s.gameOver ∧
    (handStageRight goS vicS bothOpen s inp).victory = s.victory ∧
    (handStageRight goS vicS bothOpen s inp).victorySoundPlayed = s.victorySoundPlayed ∧
    (handStageRight goS vicS bothOpen s inp).gameOverSoundPlayed = s.gameOverSoundPlayed ∧
    (handStageRight goS vicS bothOpen s inp).victorySounds = s.victorySounds ∧
    (handStageRight goS vicS bothOpen s inp).gameOverSounds = s.gameOverSounds ∧
    (handStageRight goS vicS bothOpen s inp).demons.length = s.demons.length := by
  unfold handStageRight
  exact handTrigger_fields goS vicS bothOpen s.prevHandRight inp.handRight s.lastTriggerRight
    inp.now _ _ s

theorem soundInv_transport {s t : GState} (h1 : t.victorySoundPlayed = s.victorySoundPlayed)
    (h2 : t.gameOverSoundPlayed = s.gameOverSoundPlayed)
    (h3 : t.victorySounds = s.victorySounds) (h4 : t.gameOverSounds = s.gameOverSounds)
    (h : SoundInv s) : SoundInv t := by
  unfold SoundInv at *
  rw [h1, h2, h3, h4]
  exact h

theorem shakeStage_soundInv (s : GState) (now : Int) (h : SoundInv s) :
    SoundInv (shakeStage s now) := by
  unfold SoundInv shakeStage at *
  split <;> exact h

theorem comboStage_soundInv (s : GState) (now : Int) (h : SoundInv s) :
    SoundInv (comboStage s now) := by
  unfold SoundInv comboStage at *
  split <;> exact h

theorem finaleStage_soundInv (s : GState) (b : Bool) (now : Int) (h : SoundInv s) :
    SoundInv (finaleStage s b now) := by
  unfold SoundInv finaleStage at *
  split <;> exact h

theorem spawnStage_soundInv (goS vicS : Bool) (s : GState) (inp : TickInput) (h : SoundInv s) :
    SoundInv (spawnStage goS vicS s inp) := by
  unfold SoundInv spawnStage at *
  split <;> exact h

theorem clearStage_soundInv (goS vicS b : Bool) (s : GState) (now : Int) (h : SoundInv s) :
    SoundInv (clearStage goS vicS b s now) := by
  unfold SoundInv clearStage clearAllDemons at *
  split <;> exact h

theorem demonStage_soundInv (goS vicS : Bool) (s : GState) (now : Int) (h : SoundInv s) :
    SoundInv (demonStage goS vicS s now) := by
  obtain ⟨p1, p2, p3, p4, p5, p6, p7, p8, p9⟩ := demonsPass_spec goS vicS now s.demons s
  unfold demonStage
  exact soundInv_transport rfl rfl rfl rfl (p8 h)

theorem handStageLeft_soundInv (goS vicS bothOpen : Bool) (s : GState) (inp : TickInput)
    (h : SoundInv s) : SoundInv (handStageLeft goS vicS bothOpen s inp) := by
  obtain ⟨f1, f2, f3, f4, f5, f6, f7, f8⟩ := handStageLeft_fields goS vicS bothOpen s inp
  exact soundInv_transport f4 f5 f6 f7 h

theorem handStageRight_soundInv (goS vicS bothOpen : Bool) (s : GState) (inp : TickInput)
    (h : SoundInv s) : SoundInv (handStageRight goS vicS bothOpen s inp) := by
  obtain ⟨f1, f2, f3, f4, f5, f6, f7, f8⟩ := handStageRight_fields goS vicS bothOpen s inp
  exact soundInv_transport f4 f5 f6 f7 h

theorem tick_soundInv (s0 : GState) (inp : TickInput) (h : SoundInv s0) :
    SoundInv (tick s0 inp) := by
  simp only [tick]
  apply handStageRight_soundInv
  apply handStageLeft_soundInv
  apply checkVictory_soundInv
  apply demonStage_soundInv
  apply clearStage_soundInv
  apply spawnStage_soundInv
  apply finaleStage_soundInv
  apply comboStage_soundInv
  apply shakeStage_soundInv
  exact h

theorem restartGame_soundInv (s : GState) : SoundInv (restartGame s) := by
  unfold SoundInv restartGame
  simp

/-- C9: each terminal sound plays exactly once per session.  The number of
victory (respectively game-over) sound invocations recorded this session is
exactly one when the one-shot flag is set and zero otherwise; this holds
initially, is preserved by every tick and re-established by restart, and
bounds both counters by one.  The ticks after a terminal flag is set are the
load-bearing case: the loop guards read the flags through the stale
first-render closure, so handleDemonEscape and checkVictory keep being
invoked after game over and after victory - the fourth conjunct states the
invariant's preservation by exactly those two calls as the loop performs
them, showing the one-shot refs alone prevent any re-trigger before a
restart. -/
theorem c9_theorem :
    SoundInv initState ∧
    (∀ (s : GState) (inp : TickInput), SoundInv s → SoundInv (tick s inp)) ∧
    (∀ s : GState, SoundInv (restartGame s)) ∧
    (∀ s : GState, SoundInv s →
      SoundInv (handleDemonEscape s false) ∧ SoundInv (checkVictory s false)) ∧
    (∀ s : GState, SoundInv s → s.victorySounds ≤ 1 ∧ s.gameOverSounds ≤ 1) := by
  refine ⟨⟨rfl, rfl⟩, tick_soundInv, restartGame_soundInv,
    fun s h => ⟨handleDemonEscape_soundInv s false h, checkVictory_soundInv s false h⟩, ?_⟩
  intro s h
  obtain ⟨hv, hg⟩ := h
  constructor
  · rw [hv]
    split <;> omega
  · rw [hg]
    split <;> omega

theorem shakeStage_livesInv (s : GState) (now : Int) (h : LivesInv s) :
    LivesInv (shakeStage s now) := by
  unfold LivesInv shakeStage at *
  split <;> exact h

theorem comboStage_livesInv (s : GState) (now : Int) (h : LivesInv s) :
    LivesInv (comboStage s now) := by
  unfold LivesInv comboStage at *
  split <;> exact h

theorem finaleStage_livesInv (s : GState) (b : Bool) (now : Int) (h : LivesInv s) :
    LivesInv (finaleStage s b now) := by
  unfold LivesInv finaleStage at *
  split <;> exact h

theorem spawnStage_livesInv (goS vicS : Bool) (s : GState) (inp : TickInput) (h : LivesInv s) :
    LivesInv (spawnStage goS vicS s inp) := by
  obtain ⟨h1, h3, h4⟩ := h
  unfold LivesInv
  refine ⟨?_, ?_, spawnStage_demons_le goS vicS s inp h4⟩
  · unfold spawnStage
    split <;> exact h1
  · unfold spawnStage
    split <;> exact h3

theorem clearStage_livesInv (goS vicS b : Bool) (s : GState) (now : Int) (h : LivesInv s) :
    LivesInv (clearStage goS vicS b s now) := by
  obtain ⟨h1, h3, h4⟩ := h
  unfold LivesInv clearStage clearAllDemons
  split
  · refine ⟨h1, h3, ?_⟩
    simpa using h4
  · exact ⟨h1, h3, h4⟩

theorem demonStage_livesInv (goS vicS : Bool) (s : GState) (now : Int)
    (h : LivesInv s) : LivesInv (demonStage goS vicS s now) := by
  obtain ⟨p1, p2, p3, p4, p5, p6, p7, p8, p9⟩ := demonsPass_spec goS vicS now s.demons s
  obtain ⟨h1, h3, h4⟩ := h
  unfold LivesInv
  simp only [demonStage]
  exact ⟨le_trans p1 h1, p7 h3, le_trans p9 h4⟩

theorem checkVictory_livesInv (s : GState) (vicS : Bool) (h : LivesInv s) :
    LivesInv (checkVictory s vicS) := by
  obtain ⟨c1, c2, c3, c4, c5, c6, c7, c8, c9, c10⟩ := checkVictory_spec s vicS
  obtain ⟨h1, h3, h4⟩ := h
  unfold LivesInv
  rw [c1, c2, c3, c5]
  exact ⟨h1, h3, h4⟩

theorem handStageLeft_livesInv (goS vicS bothOpen : Bool) (s : GState) (inp : TickInput)
    (h : LivesInv s) : LivesInv (handStageLeft goS vicS bothOpen s inp) := by
  obtain ⟨f1, f2, f3, f4, f5, f6, f7, f8⟩ := handStageLeft_fields goS vicS bothOpen s inp
  obtain ⟨h1, h3, h4⟩ := h
  unfold LivesInv
  rw [f1, f2, f5, f8]
  exact ⟨h1, h3, h4⟩

theorem handStageRight_livesInv (goS vicS bothOpen : Bool) (s : GState) (inp : TickInput)
    (h : LivesInv s) : LivesInv (handStageRight goS vicS bothOpen s inp) := by
  obtain ⟨f1, f2, f3, f4, f5, f6, f7, f8⟩ := handStageRight_fields goS vicS bothOpen s inp
  obtain ⟨h1, h3, h4⟩ := h
  unfold LivesInv
  rw [f1, f2, f5, f8]
  exact ⟨h1, h3, h4⟩

theorem tick_livesInv (s0 : GState) (inp : TickInput) (h : LivesInv s0) :
    LivesInv (tick s0 inp) := by
  simp only [tick]
  apply handStageRight_livesInv
  apply handStageLeft_livesInv
  apply checkVictory_livesInv
  apply demonStage_livesInv
  apply clearStage_livesInv
  apply spawnStage_livesInv
  apply finaleStage_livesInv
  apply comboStage_livesInv
  apply shakeStage_livesInv
  exact h

@[simp] theorem checkVictory_trueSnap (u : GState) : checkVictory u true = u := by
  unfold checkVictory
  simp

@[simp] theorem demonStage_trueSnap_gameOver (goS : Bool) (u : GState) (now : Int) :
    (demonStage goS true u now).gameOver = u.gameOver := by
  simp only [demonStage, demonsPass_inactive goS true now u.demons (Or.inr rfl) u]

@[simp] theorem demonStage_trueSnap_victory (goS : Bool) (u : GState) (now : Int) :
    (demonStage goS true u now).victory = u.victory := by
  simp only [demonStage, demonsPass_inactive goS true now u.demons (Or.inr rfl) u]

@[simp] theorem handStageLeft_gameOver (goS vicS bothOpen : Bool) (s : GState) (inp : TickInput) :
    (handStageLeft goS vicS bothOpen s inp).gameOver = s.gameOver :=
  (handStageLeft_fields goS vicS bothOpen s inp).2.1

@[simp] theorem handStageLeft_victory (goS vicS bothOpen : Bool) (s : GState) (inp : TickInput) :
    (handStageLeft goS vicS bothOpen s inp).victory = s.victory :=
  (handStageLeft_fields goS vicS bothOpen s inp).2.2.1

@[simp] theorem handStageRight_gameOver (goS vicS bothOpen : Bool) (s : GState) (inp : TickInput) :
    (handStageRight goS vicS bothOpen s inp).gameOver = s.gameOver :=
  (handStageRight_fields goS vicS bothOpen s inp).2.1

@[simp] theorem handStageRight_victory (goS vicS bothOpen : Bool) (s : GState) (inp : TickInput) :
    (handStageRight goS vicS bothOpen s inp).victory = s.victory :=
  (handStageRight_fields goS vicS bothOpen s inp).2.2.1

@[simp] theorem shakeStage_lives (s : GState) (now : Int) :
    (shakeStage s now).lives = s.lives := by
  unfold shakeStage
  split <;> rfl

@[simp] theorem comboStage_lives (s : GState) (now : Int) :
    (comboStage s now).lives = s.lives := by
  unfold comboStage
  split <;> rfl

@[simp] theorem finaleStage_lives (s : GState) (b : Bool) (now : Int) :
    (finaleStage s b now).lives = s.lives := by
  unfold finaleStage
  split <;> rfl

@[simp] theorem spawnStage_lives (goS vicS : Bool) (s : GState) (inp : TickInput) :
    (spawnStage goS vicS s inp).lives = s.lives := by
  unfold spawnStage
  split <;> rfl

@[simp] theorem clearStage_lives (goS vicS b : Bool) (s : GState) (now : Int) :
    (clearStage goS vicS b s now).lives = s.lives := by
  unfold clearStage
  split <;> rfl

@[simp] theorem demonStage_trueGo_lives (vicS : Bool) (u : GState) (now : Int) :
    (demonStage true vicS u now).lives = u.lives := by
  simp only [demonStage, demonsPass_inactive true vicS now u.demons (Or.inl rfl) u]

@[simp] theorem checkVictory_lives (u : GState) (vicS : Bool) :
    (checkVictory u vicS).lives = u.lives := (checkVictory_spec u vicS).1

@[simp] theorem handStageLeft_lives (goS vicS bothOpen : Bool) (s : GState) (inp : TickInput) :
    (handStageLeft goS vicS bothOpen s inp).lives = s.lives :=
  (handStageLeft_fields goS vicS bothOpen s inp).1

@[simp] theorem handStageRight_lives (goS vicS bothOpen : Bool) (s : GState) (inp : TickInput) :
    (handStageRight goS vicS bothOpen s inp).lives = s.lives :=
  (handStageRight_fields goS vicS bothOpen s inp).1

theorem tick_gameOver_mono (s0 : GState) (inp : TickInput) (h : s0.gameOver = true) :
    (tick s0 inp).gameOver = true := by
  simp only [tick]
  simp only [handStageRight_gameOver, handStageLeft_gameOver, checkVictory_gameOver]
  apply demonStage_gameOver_mono
  simpa using h

theorem tick_victory_mono (s0 : GState) (inp : TickInput) (h : s0.victory = true) :
    (tick s0 inp).victory = true := by
  simp only [tick]
  simp only [handStageRight_victory, handStageLeft_victory]
  apply checkVictory_victory_mono
  simp only [demonStage_victory, clearStage_victory, spawnStage_victory, finaleStage_victory,
    comboStage_victory, shakeStage_victory]
  exact h

theorem tick_fatal (s0 : GState) (inp : TickInput)
    (hgs : s0.gameOverSoundPlayed = false) (hl : s0.lives ≤ 1)
    (hd : ∃ d ∈ s0.demons, d.isDying = false ∧ d.escaped = false ∧
      DEMON_ESCAPE_TIME < inp.now - d.spawnTime)
    (hh : inp.handLeft ≠ HandState.openHand) :
    (tick s0 inp).gameOver = true := by
  have h1 : (inp.handLeft == HandState.openHand) = false := by
    simpa using hh
  have hb : (!false && !false && (inp.handLeft == HandState.openHand) &&
      (inp.handRight == HandState.openHand)) = false := by
    simp [h1]
  simp only [tick, hb]
  simp only [handStageRight_gameOver, handStageLeft_gameOver, checkVictory_gameOver,
    clearStage_false]
  apply demonStage_fatal
  · simp [hgs]
  · simpa using hl
  · obtain ⟨d, hdm, hp⟩ := hd
    refine ⟨d, ?_, hp⟩
    apply spawnStage_mem
    simpa using hdm

/-- C1: corrected form.  The two flags are not mutually exclusive.  What does
hold: each flag is monotone - once set, no later tick clears it, and only the
restart handler resets both.  What fails: because every loop guard reads the
gameOver and victory cells through the stale first-render closure (always
false), spawning, escapes and triggers continue after victory, so from any
state with victory set, the game-over sound not yet played, at most one life
left and an overdue live demon on the field, the very next tick (with the
left hand not open, so the Ultimate-Attack clear does not intervene) sets
game-over as well, ending with BOTH flags set; such a state is reachable
(see the counterexample trace, which ends with both flags set). -/
theorem c1_amended_theorem (s : GState) (inp : TickInput) :
    (s.gameOver = true → (tick s inp).gameOver = true) ∧
    (s.victory = true → (tick s inp).victory = true) ∧
    (restartGame s).gameOver = false ∧
    (restartGame s).victory = false ∧
    (s.victory = true → s.gameOver = false → s.gameOverSoundPlayed = false →
      s.lives ≤ 1 →
      (∃ d ∈ s.demons, d.isDying = false ∧ d.escaped = false ∧
        DEMON_ESCAPE_TIME < inp.now - d.spawnTime) →
      inp.handLeft ≠ HandState.openHand →
      (tick s inp).gameOver = true ∧ (tick s inp).victory = true) :=
  ⟨tick_gameOver_mono s inp, tick_victory_mono s inp, rfl, rfl,
    fun hv _ hgs hl hd hh => ⟨tick_fatal s inp hgs hl hd hh, tick_victory_mono s inp hv⟩⟩

theorem restartGame_livesInv (s : GState) : LivesInv (restartGame s) := by
  unfold LivesInv restartGame MAX_LIVES
  refine ⟨by simp, ?_, by simp⟩
  intro _
  simp

theorem tick_lives_bounds (s0 : GState) (inp : TickInput) (h8 : s0.demons.length ≤ 8) :
    (tick s0 inp).lives ≤ s0.lives ∧ s0.lives - 8 ≤ (tick s0 inp).lives := by
  simp only [tick]
  simp only [handStageRight_lives, handStageLeft_lives, checkVictory_lives]
  generalize (!false && !false && (inp.handLeft == HandState.openHand) &&
    (inp.handRight == HandState.openHand)) = b
  obtain ⟨d1, d2⟩ := demonStage_lives_bounds false false
    (clearStage false false b (spawnStage false false
      (finaleStage (comboStage (shakeStage s0 inp.now) inp.now) b inp.now) inp) inp.now) inp.now
  have he : (clearStage false false b (spawnStage false false
      (finaleStage (comboStage (shakeStage s0 inp.now) inp.now) b inp.now) inp) inp.now).lives
      = s0.lives := by
    simp
  have hn : (clearStage false false b (spawnStage false false
      (finaleStage (comboStage (shakeStage s0 inp.now) inp.now) b inp.now) inp)
      inp.now).demons.length ≤ 8 := by
    rw [clearStage_demons_length]
    apply spawnStage_demons_le
    simpa using h8
  omega

/-- C2: corrected form.  At every tick boundary lives never exceeds
MAX_LIVES, and as long as the game-over cell is unset lives is at least 1 (in
particular nonnegative).  Below that, the claimed range fails twice over:
demons escaping within the single tick in which lives reaches 0 each still
decrement it (no loop guard ever observes the cell the first escape sets),
and since every later tick's guards also read the stale false, escapes keep
decrementing lives for as long as demons keep spawning and going overdue -
lives has no lower bound, only the per-tick decrease is bounded: one tick
never increases lives and lowers it by at most 8, the demon-population cap.
The counterexample drives lives to -1 and then, with game-over already set,
on to -2. -/
theorem c2_amended_theorem :
    LivesInv initState ∧
    (∀ (s : GState) (inp : TickInput), LivesInv s → LivesInv (tick s inp)) ∧
    (∀ s : GState, LivesInv (restartGame s)) ∧
    (∀ (s : GState) (inp : TickInput), LivesInv s →
      (tick s inp).lives ≤ s.lives ∧ s.lives - 8 ≤ (tick s inp).lives) := by
  refine ⟨?_, tick_livesInv, restartGame_livesInv, ?_⟩
  · unfold LivesInv initState MAX_LIVES
    refine ⟨by simp, ?_, by simp⟩
    intro _
    simp
  · intro s inp h
    exact tick_lives_bounds s inp h.2.2

section

attribute [local semireducible] Rat.add Rat.mul Rat.sub Rat.inv Rat.ofScientific

set_option maxRecDepth 10000

theorem c1_steps1 : List.foldl tick initState (c1Inputs.take 12) = c1MidA := by
  decide

theorem c1_steps2 : List.foldl tick c1MidA ((c1Inputs.drop 12).take 12) = c1MidB := by
  decide

/-- C1 counterexample: running the concrete c1Inputs trace from the initial
state ends with the game-over flag AND the victory flag both set, refuting
the claimed mutual exclusion; kill 30 lands after the victory check of tick
58772, and tick 61352 processes the life-exhausting escape (setting
game-over) before its victory check observes the quota (setting victory).
The 36-tick evaluation is decomposed through the literal milestone states
c1MidA and c1MidB so that each evaluated segment stays 12 ticks long. -/
theorem c1_counterexample :
    (runTrace c1Inputs).gameOver = true ∧ (runTrace c1Inputs).victory = true ∧
    (runTrace c1Inputs).killCount = 30 ∧ (runTrace c1Inputs).lives = 0 := by
  have e1 : c1Inputs =
      c1Inputs.take 12 ++ (c1Inputs.drop 12).take 12 ++ (c1Inputs.drop 12).drop 12 := by
    decide
  rw [runTrace, e1, List.foldl_append, List.foldl_append, c1_steps1, c1_steps2]
  decide

/-- C1 witness: the amended theorem's post-victory game-over conjunct applied
at a concrete victory state with one life and one overdue demon: the next
tick leaves both flags set. -/
theorem c1_witness :
    (tick { initState with victory := true, lives := 1, demons := [demoDemon] }
      (mkInput 5001 handU handU posZero posZero 0 0 0)).gameOver = true ∧
    (tick { initState with victory := true, lives := 1, demons := [demoDemon] }
      (mkInput 5001 handU handU posZero posZero 0 0 0)).victory = true :=
  (c1_amended_theorem { initState with victory := true, lives := 1, demons := [demoDemon] }
    (mkInput 5001 handU handU posZero posZero 0 0 0)).2.2.2.2 rfl rfl rfl (by decide)
    ⟨demoDemon, List.mem_singleton.2 rfl, rfl, rfl, by decide⟩ (by decide)

/-- C2 counterexample: running the concrete c2Inputs trace from the initial
state, the two demons overdue at tick 14010 both escape in that one tick,
driving lives to -1 with game-over set, refuting the claimed 0..MAX_LIVES
range; and the following tick at 19013, its guards still reading the stale
false, processes a further escape, so lives falls to -2 even though game-over
is already set. -/
theorem c2_counterexample :
    (runTrace (c2Inputs.take 6)).lives = -1 ∧
    (runTrace (c2Inputs.take 6)).gameOver = true ∧
    ¬ 0 ≤ (runTrace (c2Inputs.take 6)).lives ∧
    (runTrace c2Inputs).lives = -2 ∧
    (runTrace c2Inputs).gameOver = true := by
  decide

/-- C2 witness: the amended invariant applied at the initial state and a
concrete tick input. -/
theorem c2_witness :
    LivesInv (tick initState (mkInput 0 handU handU posZero posZero 0 0 0)) :=
  c2_amended_theorem.2.1 initState (mkInput 0 handU handU posZero posZero 0 0 0)
    (by unfold LivesInv; decide)

/-- C3 counterexample: with every uniform draw equal to three quarters (a
legal Math.random value), an uncapped triggerExplosion at the origin emits
exactly three particles - the smoke puffs - whose position differs from the
origin, refuting the claim that all 45 particles are positioned at the
origin. -/
theorem c3_counterexample :
    ((triggerExplosion emptyPSys 0 0 1 jitterEmission).particles.filter
      (fun q => !(decide (q.x = 0) && decide (q.y = 0)))).length = 3 := by
  decide

/-- C3 witness: the amended emission contract applied at the empty pool with
the all-zero oracle. -/
theorem c3_witness :
    (triggerExplosion emptyPSys 0 0 1 zeroEmission).audio = [1] ∧
    (triggerExplosion emptyPSys 0 0 1 zeroEmission).particles.length = 45 := by
  have h := (c3_amended_theorem emptyPSys 0 0 1 zeroEmission).2.1 (by decide)
  constructor
  · rw [h.2]
    rfl
  · rw [h.1]
    simp [emptyPSys, explosionBurst_length]

/-- C4 witness: the escape contract applied to a concrete fully faded-in
demon one millisecond past its deadline, in the initial session state. -/
theorem c4_witness :
    (demonStep false false 5001 demoDemon initState).1.escaped = true ∧
    (demonStep false false 5001 demoDemon initState).2.lives = initState.lives - 1 := by
  have h := (c4_theorem demoDemon 5001 initState).1 rfl rfl (by decide)
  exact ⟨h.1, h.2.2⟩

/-- C5 counterexample: running the concrete c5Inputs trace, the Left hand
fires at 1000 and presents a fresh Fist-to-Open edge at 1250, exactly 250 ms
later; the claim (fire at an edge with at least 250 ms elapsed) would fire
and refresh the debounce timestamp to 1250, but the code rejects the trigger:
the timestamp stays 1000 and no second explosion is emitted. -/
theorem c5_counterexample :
    (runTrace c5Inputs).lastTriggerLeft = 1000 ∧ (runTrace c5Inputs).sessionExplosions = 1 := by
  decide

/-- C5 witness: the amended trigger contract applied at a concrete
Fist-to-Open edge well past the debounce window. -/
theorem c5_witness :
    handTrigger false false false HandState.fist HandState.openHand 0 1000 500 500 initState =
      (killDemonsNearPoint { initState with sessionExplosions := initState.sessionExplosions + 1 }
        1000 500 500 120, 1000) :=
  (c5_amended_theorem false false false HandState.fist HandState.openHand 0 1000 500 500
    initState).1 rfl rfl rfl rfl (by decide) (by decide)

/-- C6 counterexample: running the concrete c6Inputs trace, a hand-trigger
kill at 4500 sets combo 1; the Ultimate-Attack clear kills a second demon at
4600, inside the 1500 ms window, so under the claim the combo count would
become 2 with timestamp 4600 - but the clear-all path leaves combo state
untouched: kill count 2, combo count still 1, last-kill timestamp still
4500. -/
theorem c6_counterexample :
    (runTrace c6Inputs).killCount = 2 ∧ (runTrace c6Inputs).comboCount = 1 ∧
    (runTrace c6Inputs).lastKillTime = 4500 := by
  decide

/-- C6 witness: the amended combo contract applied at a concrete state with
one killable demon in radius. -/
theorem c6_witness :
    0 < killableCount [demoDemon] 500 500 120 ∧
    (killDemonsNearPoint { initState with demons := [demoDemon] } 1000 500 500 120).lastKillTime
      = 1000 :=
  ⟨by decide,
    ((c6_amended_theorem { initState with demons := [demoDemon] } 1000 500 500 120).2.2.2
      (by decide)).1⟩

/-- C7 witness: the particle lifecycle contract applied at a concrete
one-particle pool satisfying the pool invariant. -/
theorem c7_witness :
    PoolOk (PSys.step { particles := [flashCoreOf 0 0 1 zeroEmission], audio := [] }).particles :=
  (c7_theorem { particles := [flashCoreOf 0 0 1 zeroEmission], audio := [] }
    (by unfold PoolOk; decide)).2.2.2.1

/-- C8 counterexample: running the concrete c8Inputs trace, the demon spawned
at 2001 is killed by the hand trigger at 2301 while its fade-in alpha is only
0.10; the final pool holds one dying, non-escaped demon with alpha 1/10,
refuting the claim that the Alive-to-Dying(killed) transition can only occur
at alpha 1.0. -/
theorem c8_counterexample :
    (runTrace c8Inputs).demons.map (fun d => (d.isDying, d.escaped, d.alpha)) =
      [(true, false, 1/10)] ∧
    (runTrace c8Inputs).killCount = 1 := by
  decide

/-- C8 witness: the amended eligibility contract applied at a concrete demon
and alpha value. -/
theorem c8_witness :
    Demon.shouldEscape { demoDemon with alpha := 1/10 } 5001 = Demon.shouldEscape demoDemon 5001 :=
  (c8_amended_theorem demoDemon (1/10) 5001 500 500 120 initState).1

/-- C9 witness: the one-shot sound invariant applied across a concrete tick
from the initial state. -/
theorem c9_witness :
    SoundInv (tick initState (mkInput 100 handU handU posZero posZero 0 0 0)) :=
  c9_theorem.2.1 initState (mkInput 100 handU handU posZero posZero 0 0 0) ⟨rfl, rfl⟩

/-- C10 witness: the pool bound applied at the empty pool: one uncapped
emission yields exactly 45 live particles. -/
theorem c10_witness :
    (triggerExplosion emptyPSys 0 0 1 zeroEmission).particles.length =
      emptyPSys.particles.length + 45 :=
  (c10_theorem emptyPSys 0 0 1 zeroEmission).2.1 (by decide)

end
